import Mathlib

/-!
Verification development for the roadmapr-bot repository.

The TypeScript source is shallowly embedded in Lean:
* JS regular expressions are embedded through a small backtracking regex
  engine (`RE`, `reRun`) with JS semantics: leftmost match, greedy/lazy
  quantifiers by backtracking, `\b` word boundaries, `$` end anchor,
  case-insensitive literals for the `/i` flag.  Character classes are the
  ASCII part of the JS classes (all inputs handled by the bot's patterns
  are ASCII).
* Floating point numbers that the code only compares and defaults
  (confidences, similarity scores, thresholds) are embedded as `ℚ`; all
  values appearing in the source are exact binary/decimal fractions, so no
  rounding behaviour is lost.
* `async` calls to external collaborators (Neynar social client, Supabase
  datastore, LLM providers) are embedded as oracle fields of an
  environment record; a call that the source wraps in try/catch and maps
  to a default is embedded as an `Option`/`Except` valued oracle.
* Some source files contain two concatenated revisions of the same
  module; the second (current) revision is embedded, and quoted line
  numbers refer to it.
-/

set_option maxRecDepth 20000

namespace Roadmapr

/-! ### Character classes (ASCII fragment of the JS classes) -/

/-- The apostrophe character (written via its code point). -/
def apos : Char := Char.ofNat 39

/-- JS `\d`. -/
def isDigitC (c : Char) : Bool := 48 ≤ c.toNat && c.toNat ≤ 57

/-- ASCII `a`-`z`. -/
def isLowerC (c : Char) : Bool := 97 ≤ c.toNat && c.toNat ≤ 122

/-- ASCII `A`-`Z`. -/
def isUpperC (c : Char) : Bool := 65 ≤ c.toNat && c.toNat ≤ 90

/-- JS `\w` = `[A-Za-z0-9_]`. -/
def isWordC (c : Char) : Bool := isLowerC c || isUpperC c || isDigitC c || c = '_'

/-- JS `\s` (ASCII fragment: space, tab, newline, carriage return, vertical
tab, form feed). -/
def isSpaceC (c : Char) : Bool :=
  c = ' ' || c = '\t' || c = '\n' || c = '\x0d' || c = '\x0b' || c = '\x0c'

/-- JS `.` (anything but a line terminator). -/
def isDotC (c : Char) : Bool := !(c = '\n' || c = '\x0d')

/-- `[a-z0-9_-]` under the `/i` flag. -/
def isHandleC (c : Char) : Bool :=
  isLowerC c || isUpperC c || isDigitC c || c = '-' || c = '_'

/-- `[a-z0-9_-]` without `/i` (used by `.replace(/[^a-z0-9_-]/g, '')`). -/
def isLowerHandleC (c : Char) : Bool :=
  isLowerC c || isDigitC c || c = '-' || c = '_'

/-- `[:\s]` (colon or whitespace). -/
def isColonSpaceC (c : Char) : Bool := c = ':' || isSpaceC c

/-- `[^\s,]`. -/
def isNotSpaceCommaC (c : Char) : Bool := !(isSpaceC c || c = ',')

/-- `[a-fA-F0-9]` (hex digit). -/
def isHexC (c : Char) : Bool :=
  isDigitC c || (97 ≤ c.toNat && c.toNat ≤ 102) || (65 ≤ c.toNat && c.toNat ≤ 70)

/-- `[a-zA-Z]`. -/
def isAlphaC (c : Char) : Bool := isLowerC c || isUpperC c

/-- `["']` (double or single quote). -/
def isQuoteC (c : Char) : Bool := c = '"' || c = apos

/-! ### Regex engine

`RE` is the abstract syntax of the fragment of JS regexes the bot uses.
Repetition only ever occurs over single-character classes in the source,
which keeps the backtracking matcher structurally recursive. -/

inductive RE where
  /-- empty pattern -/
  | eps : RE
  /-- case-insensitive literal (`/i` flag) -/
  | lit : List Char → RE
  /-- case-sensitive literal -/
  | litCS : List Char → RE
  /-- single character from a class -/
  | cls : (Char → Bool) → RE
  | seq : RE → RE → RE
  /-- alternation, left alternative preferred (JS order) -/
  | alt : RE → RE → RE
  /-- greedy `?` -/
  | opt : RE → RE
  /-- greedy `*` over a class -/
  | starG : (Char → Bool) → RE
  /-- greedy `+` over a class -/
  | plusG : (Char → Bool) → RE
  /-- lazy `+?` over a class -/
  | plusL : (Char → Bool) → RE
  /-- exactly `n` repetitions of a class (`{n}`) -/
  | rep : Nat → (Char → Bool) → RE
  /-- `\b` word boundary -/
  | bnd : RE
  /-- `$` end-of-input anchor (no `/m` flag anywhere in the source) -/
  | eos : RE

/-- Sequence a list of patterns. -/
def RE.seqs : List RE → RE
  | [] => .eps
  | [r] => r
  | r :: rs => .seq r (RE.seqs rs)

/-- Alternation over a non-empty list, first preferred. -/
def RE.alts : List RE → RE
  | [] => .eps
  | [r] => r
  | r :: rs => .alt r (RE.alts rs)

/-- Case-insensitive character comparison (ASCII, as in the `/i` flag). -/
def ciEq (a b : Char) : Bool := a.toLower = b.toLower

/-- Match a literal; returns the new previous-character and remaining input. -/
def matchLit (ci : Bool) : List Char → Option Char → List Char →
    Option (Option Char × List Char)
  | [], prev, s => some (prev, s)
  | l :: ls, prev, c :: cs =>
    if (if ci then ciEq l c else l = c) then matchLit ci ls (some c) cs
    else none
  | _ :: _, _, [] => none

/-- Is the optional character a word character? (`\b` support). -/
def isWordOpt : Option Char → Bool
  | none => false
  | some c => isWordC c

/-- `\b`: exactly one side of the current position is a word character. -/
def atBoundary (prev : Option Char) (s : List Char) : Bool :=
  isWordOpt prev != isWordOpt s.head?

/-- Greedy Kleene star over a class, in continuation-passing style: the
longest extension that lets the continuation succeed wins. -/
def starGRun (p : Char → Bool) (k : Option Char → List Char → Option α) :
    Option Char → List Char → Option α
  | prev, [] => k prev []
  | prev, c :: cs =>
    if p c then
      match starGRun p k (some c) cs with
      | some r => some r
      | none => k prev (c :: cs)
    else k prev (c :: cs)

/-- Lazy Kleene star over a class: the shortest extension wins. -/
def starLRun (p : Char → Bool) (k : Option Char → List Char → Option α) :
    Option Char → List Char → Option α
  | prev, s =>
    match k prev s with
    | some r => some r
    | none =>
      match s with
      | [] => none
      | c :: cs => if p c then starLRun p k (some c) cs else none

/-- Exactly `n` characters of a class. -/
def repRun (p : Char → Bool) (k : Option Char → List Char → Option α) :
    Nat → Option Char → List Char → Option α
  | 0, prev, s => k prev s
  | n + 1, _, s =>
    match s with
    | [] => none
    | c :: cs => if p c then repRun p k n (some c) cs else none

/-- The backtracking matcher.  `prev` is the character just before the
current position (for `\b`); the continuation receives the updated `prev`
and the remaining input. -/
def reRun : RE → (Option Char → List Char → Option α) →
    Option Char → List Char → Option α
  | .eps, k, prev, s => k prev s
  | .lit l, k, prev, s =>
    match matchLit true l prev s with
    | some (p', s') => k p' s'
    | none => none
  | .litCS l, k, prev, s =>
    match matchLit false l prev s with
    | some (p', s') => k p' s'
    | none => none
  | .cls p, k, _, s =>
    match s with
    | [] => none
    | c :: cs => if p c then k (some c) cs else none
  | .seq a b, k, prev, s => reRun a (fun p' s' => reRun b k p' s') prev s
  | .alt a b, k, prev, s =>
    match reRun a k prev s with
    | some r => some r
    | none => reRun b k prev s
  | .opt a, k, prev, s =>
    match reRun a k prev s with
    | some r => some r
    | none => k prev s
  | .starG p, k, prev, s => starGRun p k prev s
  | .plusG p, k, prev, s =>
    match s with
    | [] => none
    | c :: cs => if p c then starGRun p k (some c) cs else none
  | .plusL p, k, prev, s =>
    match s with
    | [] => none
    | c :: cs => if p c then starLRun p k (some c) cs else none
  | .rep n p, k, prev, s => repRun p k n prev s
  | .bnd, k, prev, s => if atBoundary prev s then k prev s else none
  | .eos, k, prev, s =>
    match s with
    | [] => k prev []
    | _ :: _ => none

/-- A pattern with one capture group: `pre (cap) post`.  All the bot's
regexes have this shape (alternatives with several groups are embedded as
lists of `Pat`, matching JS's position-first, alternative-second order;
the code always coalesces the groups with `match[1] || match[2]`). -/
structure Pat where
  pre : RE
  cap : RE
  post : RE

/-- Try to match a `Pat` at the current position; returns the capture and
the remaining input after the whole match. -/
def patRun (p : Pat) (prev : Option Char) (s : List Char) :
    Option (List Char × List Char) :=
  reRun p.pre
    (fun p1 s1 =>
      reRun p.cap
        (fun p2 s2 =>
          reRun p.post
            (fun _ s3 => some (s1.take (s1.length - s2.length), s3)) p2 s2)
        p1 s1)
    prev s

/-- Leftmost match of a list of alternatives (JS `String.match` with a
top-level alternation): positions are tried left to right, and at each
position the alternatives are tried in order.  Returns the capture and
the index just after the match. -/
def findAlts (pats : List Pat) : Option Char → List Char → Nat →
    Option (List Char × Nat)
  | prev, s, idx =>
    match pats.findSome? (fun p => patRun p prev s) with
    | some (cap, rest) => some (cap, idx + (s.length - rest.length))
    | none =>
      match s with
      | [] => none
      | c :: cs => findAlts pats (some c) cs (idx + 1)

/-- Leftmost match of one pattern starting from the string start. -/
def findPat (p : Pat) (s : List Char) : Option (List Char × Nat) :=
  findAlts [p] none s 0

/-- First capture of a `String.match` call (group 1), if any. -/
def matchCap (p : Pat) (s : List Char) : Option (List Char) :=
  (findPat p s).map Prod.fst

/-- `RegExp.test`: does the pattern match anywhere? -/
def reTest (p : Pat) (s : List Char) : Bool := (findPat p s).isSome

/-- The previous character at index `i` of `s` (for resuming a `/g` search
from `lastIndex`). -/
def prevAt (s : List Char) (i : Nat) : Option Char :=
  if i = 0 then none else (s.take i).getLast?

/-- `RegExp.exec` on a `/g` regex whose `lastIndex` is `li`: search starts
at `li`; a match moves `lastIndex` to the match end, a failure (including
`lastIndex` beyond the input) resets it to `0`.  Returns the capture and
the new `lastIndex`. -/
def execG (p : Pat) (s : List Char) (li : Nat) : Option (List Char × Nat) :=
  if li > s.length then none
  else findAlts [p] (prevAt s li) (s.drop li) li

/-- All captures of a global (`/g`) scan, with JS semantics: scanning
resumes right after each (always non-empty) match.  Fuel-driven; the fuel
`s.length + 1` always suffices. -/
def scanAllF (p : Pat) : Nat → Option Char → List Char → List (List Char)
  | 0, _, _ => []
  | fuel + 1, prev, s =>
    match patRun p prev s with
    | some (cap, rest) =>
      let k := s.length - rest.length
      if k = 0 then []
      else cap :: scanAllF p fuel ((s.take k).getLast?) rest
    | none =>
      match s with
      | [] => []
      | c :: cs => scanAllF p fuel (some c) cs

/-- All captures of `text.match(/.../g)`-style scans. -/
def scanAll (p : Pat) (s : List Char) : List (List Char) :=
  scanAllF p (s.length + 1) none s

/-- Remove every match of a pattern (`text.replace(/.../g, '')`). -/
def removeAllF (p : Pat) : Nat → Option Char → List Char → List Char
  | 0, _, s => s
  | fuel + 1, prev, s =>
    match patRun p prev s with
    | some (_, rest) =>
      let k := s.length - rest.length
      if k = 0 then s
      else removeAllF p fuel ((s.take k).getLast?) rest
    | none =>
      match s with
      | [] => []
      | c :: cs => c :: removeAllF p fuel (some c) cs

/-- `text.replace(/.../g, '')`. -/
def removeAll (p : Pat) (s : List Char) : List Char :=
  removeAllF p (s.length + 1) none s

/-- Remove the first match of a pattern (`text.replace(/.../i, '')`,
no `g` flag). -/
def removeFirstF (p : Pat) : Nat → Option Char → List Char → List Char
  | 0, _, s => s
  | fuel + 1, prev, s =>
    match patRun p prev s with
    | some (_, rest) => rest
    | none =>
      match s with
      | [] => []
      | c :: cs => c :: removeFirstF p fuel (some c) cs

/-- `text.replace(pattern, '')` without the `g` flag. -/
def removeFirst (p : Pat) (s : List Char) : List Char :=
  removeFirstF p (s.length + 1) none s

/-! ### JS string helpers -/

/-- `String.prototype.trim()` (ASCII whitespace fragment). -/
def trimJS (s : List Char) : List Char :=
  ((s.dropWhile isSpaceC).reverse.dropWhile isSpaceC).reverse

/-- `text.replace(/\s+/g, ' ')`: collapse whitespace runs to one space
(in a run only the last whitespace character survives, becoming `' '`). -/
def collapseWs : List Char → List Char
  | [] => []
  | [c] => if isSpaceC c then [' '] else [c]
  | c :: d :: cs =>
    if isSpaceC c && isSpaceC d then collapseWs (d :: cs)
    else (if isSpaceC c then ' ' else c) :: collapseWs (d :: cs)

/-- `[.!?]`. -/
def isPunctC (c : Char) : Bool := c = '.' || c = '!' || c = '?'

/-- Worker for `text.split(/[.!?]+/)`; a run of separators splits once. -/
def splitPunctAux : List Char → List Char → List (List Char)
  | cur, [] => [cur.reverse]
  | cur, [c] => if isPunctC c then [cur.reverse, []] else [(c :: cur).reverse]
  | cur, c :: d :: cs =>
    if isPunctC c then
      if isPunctC d then splitPunctAux cur (d :: cs)
      else cur.reverse :: splitPunctAux [] (d :: cs)
    else splitPunctAux (c :: cur) (d :: cs)

/-- `text.split(/[.!?]+/)` (maximal separator runs, empty fields kept at
the ends, as in JS). -/
def splitPunct (s : List Char) : List (List Char) := splitPunctAux [] s

/-- Is the first list a prefix of the second (character-exact)? -/
def isPrefOf : List Char → List Char → Bool
  | [], _ => true
  | _ :: _, [] => false
  | a :: as, b :: bs => a = b && isPrefOf as bs

/-- `hay.includes(needle)` for exact (case-sensitive) substrings. -/
def hasSub (needle : List Char) : List Char → Bool
  | [] => needle.isEmpty
  | c :: t => isPrefOf needle (c :: t) || hasSub needle t

/-- `text.includes(sub)` on strings. -/
def containsSub (hay sub : String) : Bool := hasSub sub.data hay.data

/-- `s.charAt(0).toUpperCase() + s.slice(1)`. -/
def upFirst : List Char → List Char
  | [] => []
  | c :: cs => c.toUpper :: cs

/-- Lowercase a character list (ASCII, as the code only feeds it ASCII). -/
def toLowerL (s : List Char) : List Char := s.map Char.toLower

/-- `String.prototype.toLowerCase()` (via the character list, so that it
computes by kernel reduction). -/
def toLowerS (s : String) : String := String.mk (toLowerL s.data)

/-- `parseInt` on a string of decimal digits. -/
def natOfDigits (s : List Char) : Nat :=
  s.foldl (fun n c => n * 10 + (c.toNat - 48)) 0

/-- Deduplicate keeping first occurrences (JS `Set` insertion order). -/
def dedupeAux (seen : List String) : List String → List String
  | [] => []
  | x :: xs =>
    if seen.contains x then dedupeAux seen xs
    else x :: dedupeAux (x :: seen) xs

/-! ### Intent data model (src/bot/intent.ts) -/

inductive IntentKind where
  | create_project
  | add_feature
  | unknown
deriving DecidableEq, Repr

/-- `DetectedIntent` from src/bot/intent.ts. -/
structure DetectedIntent where
  intent : IntentKind
  targetProjects : List String
  newProjectName : Option String := none
  confidence : ℚ
  reasoning : Option String := none
deriving DecidableEq, Repr

/-! ### The pattern classifier `detectIntentByPattern`

Transcribed regex by regex from src/bot/intent.ts (lines 386-508). -/

/-- `\s+` -/
def sp1 : RE := .plusG isSpaceC

/-- `\s*` -/
def spS : RE := .starG isSpaceC

/-- `["']?` -/
def qOpt : RE := .opt (.cls isQuoteC)

/-- `([a-z0-9_-]+)` with `/i` -/
def handleCap : RE := .plusG isHandleC

/-- `(?:a\s+)?` -/
def optA : RE := .opt (.seqs [.lit "a".data, sp1])

/-- `(?:new\s+)?` -/
def optNew : RE := .opt (.seqs [.lit "new".data, sp1])

/-- `(?:a\s+|the\s+)?` -/
def optAorThe : RE :=
  .opt (.alt (.seqs [.lit "a".data, sp1]) (.seqs [.lit "the".data, sp1]))

/-- `(?:called\s+|named\s+)?` -/
def optCalledNamed : RE :=
  .opt (.alt (.seqs [.lit "called".data, sp1]) (.seqs [.lit "named".data, sp1]))

/-- `(?:called\s+|named\s+|for\s+)?` -/
def optCalledNamedFor : RE :=
  .opt (.alts [.seqs [.lit "called".data, sp1], .seqs [.lit "named".data, sp1],
               .seqs [.lit "for".data, sp1]])

/-- `/@roadmapr\b/gi` -/
def roadmaprPat : Pat :=
  { pre := .seqs [.litCS ['@'], .lit "roadmapr".data, .bnd], cap := .eps, post := .eps }

/-- `/@([a-z0-9_-]+)/gi` -/
def mentionPat : Pat := { pre := .litCS ['@'], cap := handleCap, post := .eps }

/-- The `createProjectPatterns` array, in source order. -/
def createProjectPats : List Pat :=
  [ -- /create\s+(?:a\s+)?(?:new\s+)?project\s+(?:called\s+|named\s+|for\s+)?["']?([a-z0-9_-]+)["']?/i
    { pre := .seqs [.lit "create".data, sp1, optA, optNew, .lit "project".data, sp1,
                    optCalledNamedFor, qOpt],
      cap := handleCap, post := qOpt },
    -- /new\s+project\s+(?:called\s+|named\s+)?["']?([a-z0-9_-]+)["']?/i
    { pre := .seqs [.lit "new".data, sp1, .lit "project".data, sp1, optCalledNamed, qOpt],
      cap := handleCap, post := qOpt },
    -- /make\s+(?:a\s+)?project\s+(?:called\s+|named\s+)?["']?([a-z0-9_-]+)["']?/i
    { pre := .seqs [.lit "make".data, sp1, optA, .lit "project".data, sp1, optCalledNamed, qOpt],
      cap := handleCap, post := qOpt },
    -- /add\s+project\s+(?:called\s+|named\s+)?["']?([a-z0-9_-]+)["']?/i
    { pre := .seqs [.lit "add".data, sp1, .lit "project".data, sp1, optCalledNamed, qOpt],
      cap := handleCap, post := qOpt },
    -- /set\s*up\s+(?:a\s+)?project\s+(?:called\s+|named\s+)?["']?([a-z0-9_-]+)["']?/i
    { pre := .seqs [.lit "set".data, spS, .lit "up".data, sp1, optA, .lit "project".data, sp1,
                    optCalledNamed, qOpt],
      cap := handleCap, post := qOpt },
    -- /start\s+(?:a\s+)?project\s+(?:called\s+|named\s+)?["']?([a-z0-9_-]+)["']?/i
    { pre := .seqs [.lit "start".data, sp1, optA, .lit "project".data, sp1, optCalledNamed, qOpt],
      cap := handleCap, post := qOpt },
    -- /project\s+(?:called\s+|named\s+)?["']?([a-z0-9_-]+)["']?\s+(?:for|with|board)/i
    { pre := .seqs [.lit "project".data, sp1, optCalledNamed, qOpt],
      cap := handleCap,
      post := .seqs [qOpt, sp1, .alts [.lit "for".data, .lit "with".data, .lit "board".data]] },
    -- /create\s+(?:a\s+|the\s+)?["']?([a-z0-9_-]+)["']?\s+(?:project\s+)?board/i
    { pre := .seqs [.lit "create".data, sp1, optAorThe, qOpt],
      cap := handleCap,
      post := .seqs [qOpt, sp1, .opt (.seqs [.lit "project".data, sp1]), .lit "board".data] },
    -- /create\s+(?:a\s+|the\s+)?["']?([a-z0-9_-]+)["']?\s+project\b/i
    { pre := .seqs [.lit "create".data, sp1, optAorThe, qOpt],
      cap := handleCap,
      post := .seqs [qOpt, sp1, .lit "project".data, .bnd] },
    -- /make\s+(?:a\s+|the\s+)?["']?([a-z0-9_-]+)["']?\s+project\b/i
    { pre := .seqs [.lit "make".data, sp1, optAorThe, qOpt],
      cap := handleCap,
      post := .seqs [qOpt, sp1, .lit "project".data, .bnd] },
    -- /set\s*up\s+(?:a\s+|the\s+)?["']?([a-z0-9_-]+)["']?\s+project\b/i
    { pre := .seqs [.lit "set".data, spS, .lit "up".data, sp1, optAorThe, qOpt],
      cap := handleCap,
      post := .seqs [qOpt, sp1, .lit "project".data, .bnd] } ]

/-- The stopword set rejected as captured project names. -/
def stopwords : List String :=
  ["a", "an", "the", "my", "our", "this", "that", "new", "project", "board"]

/-- `match[1].toLowerCase().replace(/[^a-z0-9_-]/g, '')`. -/
def normCandidate (cap : List Char) : List Char :=
  (toLowerL cap).filter isLowerHandleC

/-- One iteration of the `createProjectPatterns` loop: the (normalized)
capture, provided it is non-empty and not a stopword. -/
def createProjectCandidate (clean : List Char) (p : Pat) : Option String :=
  match matchCap p clean with
  | some cap =>
    if (normCandidate cap).isEmpty then none
    else if stopwords.contains (String.mk (normCandidate cap)) then none
    else some (String.mk (normCandidate cap))
  | none => none

/-- The `createProjectPatterns` loop: first pattern whose (normalized)
capture is a non-empty non-stopword wins. -/
def createProjectScan (clean : List Char) : Option String :=
  createProjectPats.findSome? (createProjectCandidate clean)

/-- The `addFeaturePatterns` array, in source order. -/
def addFeaturePats : List Pat :=
  [ -- /(?:add|create|implement|build|make)\s+.+?\s+(?:to|for|on)\s+@([a-z0-9_-]+)/i
    { pre := .seqs [.alts [.lit "add".data, .lit "create".data, .lit "implement".data,
                           .lit "build".data, .lit "make".data],
                    sp1, .plusL isDotC, sp1,
                    .alts [.lit "to".data, .lit "for".data, .lit "on".data],
                    sp1, .litCS ['@']],
      cap := handleCap, post := .eps },
    -- /for\s+@([a-z0-9_-]+),?\s+(?:add|create|implement|build)/i
    { pre := .seqs [.lit "for".data, sp1, .litCS ['@']],
      cap := handleCap,
      post := .seqs [.opt (.litCS [',']), sp1,
                     .alts [.lit "add".data, .lit "create".data, .lit "implement".data,
                            .lit "build".data]] },
    -- /@([a-z0-9_-]+)\s+(?:should|needs|requires|could use)\s+/i
    { pre := .litCS ['@'],
      cap := handleCap,
      post := .seqs [sp1, .alts [.lit "should".data, .lit "needs".data, .lit "requires".data,
                                 .lit "could use".data], sp1] },
    -- /feature\s+(?:request\s+)?(?:for\s+)?@([a-z0-9_-]+)/i
    { pre := .seqs [.lit "feature".data, sp1, .opt (.seqs [.lit "request".data, sp1]),
                    .opt (.seqs [.lit "for".data, sp1]), .litCS ['@']],
      cap := handleCap, post := .eps },
    -- /(?:implement|build|make)\s+.+?\s+for\s+@([a-z0-9_-]+)/i
    { pre := .seqs [.alts [.lit "implement".data, .lit "build".data, .lit "make".data],
                    sp1, .plusL isDotC, sp1, .lit "for".data, sp1, .litCS ['@']],
      cap := handleCap, post := .eps } ]

/-- The `addFeaturePatterns` loop: first pattern whose captured handle is a
known project or an @-mention wins. -/
def addFeatureScan (clean : List Char) (allKnownProjects mentions : List String) :
    Option String :=
  addFeaturePats.findSome? (fun p =>
    match matchCap p clean with
    | some cap =>
      let potential := String.mk (toLowerL cap)
      if allKnownProjects.contains potential || mentions.contains potential then
        some potential
      else none
    | none => none)

/-- /\b(create|new|make|add|setup|set\s+up|start)\s+(?:a\s+)?(?:new\s+)?project\b/i -/
def genericCreatePat : Pat :=
  { pre := .seqs [.bnd,
                  .alts [.lit "create".data, .lit "new".data, .lit "make".data,
                         .lit "add".data, .lit "setup".data,
                         .seqs [.lit "set".data, sp1, .lit "up".data], .lit "start".data],
                  sp1, optA, optNew, .lit "project".data, .bnd],
    cap := .eps, post := .eps }

/-- `text.replace(/@roadmapr\b/gi, '').replace(/\s+/g, ' ').trim()`. -/
def cleanTextOf (text : String) : String :=
  String.mk (trimJS (collapseWs (removeAll roadmaprPat text.data)))

/-- `detectIntentByPattern` from src/bot/intent.ts (lines 386-508). -/
def detectIntentByPattern (text : String) (allKnownProjects : List String) :
    DetectedIntent :=
  let clean := (cleanTextOf text).data
  let mentions :=
    dedupeAux [] ((scanAll mentionPat clean).map (fun c => String.mk (toLowerL c)))
  match createProjectScan clean with
  | some name =>
    { intent := .create_project, targetProjects := [], newProjectName := some name,
      confidence := mkRat 75 100, reasoning := some "Pattern matched: create project request" }
  | none =>
    match addFeatureScan clean allKnownProjects mentions with
    | some handle =>
      { intent := .add_feature, targetProjects := [handle], confidence := mkRat 75 100,
        reasoning := some "Pattern matched: add feature request" }
    | none =>
      let knownMentions := mentions.filter (fun m => allKnownProjects.contains m)
      if mentions.length > 0 && knownMentions.length > 0 then
        { intent := .add_feature, targetProjects := knownMentions, confidence := mkRat 50 100,
          reasoning := some "Project mentions detected, assuming add feature intent" }
      else if reTest genericCreatePat (toLowerL clean) then
        { intent := .create_project, targetProjects := [], confidence := mkRat 40 100,
          reasoning := some "Create project keywords detected but no specific name found" }
      else
        { intent := .unknown, targetProjects := [], confidence := mkRat 2 10,
          reasoning := some "No clear pattern matched" }

/-! ### `detectIntent` (src/bot/intent.ts lines 514-658)

The two LLM providers are oracles: an attempt is `some r` when the
chat-completion call succeeds AND its content parses as JSON (in which
case `r` is the validated `DetectedIntent` the code builds from it), and
`none` on any failure — network error, non-2xx status, or unparseable
content.  Every failure is caught inside `detectIntent` (try/catch around
the OpenAI call, `continue` inside the GLM model loop), so the embedding
is a total function. -/

structure IntentLLM where
  /-- is `process.env.OPENAI_API_KEY` set? -/
  openaiKey : Bool
  /-- outcome of the OpenAI chat-completion call + JSON parse -/
  openai : Option DetectedIntent
  /-- outcome of the GLM chat-completion call + JSON parse, per model name -/
  glm : String → Option DetectedIntent

/-- `MODELS_TO_TRY` from src/bot/intent.ts. -/
def MODELS_TO_TRY : List String := ["glm-4.7", "glm-4.6", "glm-4.5", "glm-4.5-air"]

/-- The GLM model loop: first successful model wins; returns the result
and the number of chat-completion calls made. -/
def glmFallback (env : IntentLLM) : List String → Option (DetectedIntent × Nat)
  | [] => none
  | m :: ms =>
    match env.glm m with
    | some r => some (r, 1)
    | none => (glmFallback env ms).map (fun p => (p.1, p.2 + 1))

/-- `detectIntent` from src/bot/intent.ts (lines 514-658): pattern fast
path at confidence ≥ 0.7, else OpenAI, else the GLM model ladder, else
the pattern result again.  The second component counts the LLM
chat-completion calls made during the invocation. -/
def detectIntent (env : IntentLLM) (text : String) (allKnownProjects : List String) :
    DetectedIntent × Nat :=
  let patternResult := detectIntentByPattern text allKnownProjects
  if patternResult.confidence ≥ mkRat 7 10 then (patternResult, 0)  -- confidence >= 0.7
  else
    let openaiCalls : Nat := if env.openaiKey then 1 else 0
    match (if env.openaiKey then env.openai else none) with
    | some r => (r, openaiCalls)
    | none =>
      match glmFallback env MODELS_TO_TRY with
      | some (r, n) => (r, openaiCalls + n)
      | none =>
        (detectIntentByPattern text allKnownProjects, openaiCalls + MODELS_TO_TRY.length)

/-! ### Feature extraction (src/bot/extractor.ts) -/

structure SubItem where
  title : String
  description : String
deriving DecidableEq, Repr

/-- `ExtractedFeature` from src/bot/extractor.ts (`subItems` optional in
TS; absent is embedded as `[]`, which the processor treats identically). -/
structure ExtractedFeature where
  title : String
  description : String
  subItems : List SubItem := []
deriving DecidableEq, Repr

/-- One entry of the `featurePatterns` array: the `/gi` regex, the action
verb for the synthesized title, and the default title. -/
structure FPat where
  pat : Pat
  action : String
  dflt : String

/-- `(?:the\s+)?` -/
def optThe : RE := .opt (.seqs [.lit "the".data, sp1])

/-- The `featurePatterns` array of `extractFeaturesByPattern`, in source
order.  All seven regexes carry the `/gi` flags, so their `lastIndex`
persists across sentences within one call; see `execPats`. -/
def featurePats : List FPat :=
  [ -- /(?:add|create|implement|build|make)\s+(?:a\s+)?(?:the\s+)?(.+?)(?:\s+(?:feature|option|setting|button|functionality|ability|support))/gi
    { pat := { pre := .seqs [.alts [.lit "add".data, .lit "create".data, .lit "implement".data,
                                    .lit "build".data, .lit "make".data], sp1, optA, optThe],
               cap := .plusL isDotC,
               post := .seqs [sp1, .alts [.lit "feature".data, .lit "option".data,
                                          .lit "setting".data, .lit "button".data,
                                          .lit "functionality".data, .lit "ability".data,
                                          .lit "support".data]] },
      action := "Add", dflt := "Add requested feature" },
    -- /(?:add|create|implement)\s+(.+?)(?:\s+(?:to|for|in))/gi
    { pat := { pre := .seqs [.alts [.lit "add".data, .lit "create".data, .lit "implement".data],
                             sp1],
               cap := .plusL isDotC,
               post := .seqs [sp1, .alts [.lit "to".data, .lit "for".data, .lit "in".data]] },
      action := "Add", dflt := "Add requested feature" },
    -- /(?:fix|repair|resolve)\s+(?:the\s+)?(.+?)(?:\s+(?:bug|issue|problem|error))/gi
    { pat := { pre := .seqs [.alts [.lit "fix".data, .lit "repair".data, .lit "resolve".data],
                             sp1, optThe],
               cap := .plusL isDotC,
               post := .seqs [sp1, .alts [.lit "bug".data, .lit "issue".data,
                                          .lit "problem".data, .lit "error".data]] },
      action := "Fix", dflt := "Fix reported issue" },
    -- /(.+?)\s+(?:doesn't work|is broken|is not working|is buggy)/gi
    { pat := { pre := .eps,
               cap := .plusL isDotC,
               post := .seqs [sp1, .alts [.lit ("doesn".data ++ [apos] ++ "t work".data),
                                          .lit "is broken".data, .lit "is not working".data,
                                          .lit "is buggy".data]] },
      action := "Fix", dflt := "Fix broken functionality" },
    -- /(?:improve|enhance|optimize)\s+(.+)/gi
    { pat := { pre := .seqs [.alts [.lit "improve".data, .lit "enhance".data,
                                    .lit "optimize".data], sp1],
               cap := .plusG isDotC, post := .eps },
      action := "Improve", dflt := "Improve existing feature" },
    -- /(?:i need|i want|i'd like|we need|we want|should have|could use)\s+(.+?)(?:\.|$)/gi
    { pat := { pre := .seqs [.alts [.lit "i need".data, .lit "i want".data,
                                    .lit ("i".data ++ [apos] ++ "d like".data),
                                    .lit "we need".data, .lit "we want".data,
                                    .lit "should have".data, .lit "could use".data], sp1],
               cap := .plusL isDotC,
               post := .alt (.lit ".".data) .eos },
      action := "Add", dflt := "User requested feature" },
    -- /(?:support for|ability to|option to)\s+(.+?)(?:\.|$)/gi
    { pat := { pre := .seqs [.alts [.lit "support for".data, .lit "ability to".data,
                                    .lit "option to".data], sp1],
               cap := .plusL isDotC,
               post := .alt (.lit ".".data) .eos },
      action := "Add support for", dflt := "Add support request" } ]

/-- `/^(please|thanks|thank you|hey|hello|yes|no)/i` (anchored test). -/
def greetStartPat : Pat :=
  { pre := .alts [.lit "please".data, .lit "thanks".data, .lit "thank you".data,
                  .lit "hey".data, .lit "hello".data, .lit "yes".data, .lit "no".data],
    cap := .eps, post := .eps }

/-- Test a `^`-anchored pattern (match only at the string start). -/
def testAtStart (p : Pat) (s : List Char) : Bool := (patRun p none s).isSome

/-- `/\b(add|fix|create|make|implement|need|want|should|could)\b/i`. -/
def genericKeywordPat : Pat :=
  { pre := .seqs [.bnd, .alts [.lit "add".data, .lit "fix".data, .lit "create".data,
                               .lit "make".data, .lit "implement".data, .lit "need".data,
                               .lit "want".data, .lit "should".data, .lit "could".data], .bnd],
    cap := .eps, post := .eps }

/-- `/^(please|can you|can we|i|i'd|we'd)\s+/i`. -/
def cleanedStartPat : Pat :=
  { pre := .seqs [.alts [.lit "please".data, .lit "can you".data, .lit "can we".data,
                         .lit "i".data, .lit ("i".data ++ [apos] ++ "d".data),
                         .lit ("we".data ++ [apos] ++ "d".data)], sp1],
    cap := .eps, post := .eps }

/-- Remove a `^`-anchored first match (`trimmed.replace(/^.../i, '')`). -/
def removeStart (p : Pat) (s : List Char) : List Char :=
  match patRun p none s with
  | some (_, rest) => rest
  | none => s

/-- `title.length > 100 ? title.substring(0, 97) + '...' : title`. -/
def truncTitle (t : List Char) : List Char :=
  if t.length > 100 then t.take 97 ++ "...".data else t

/-- Run the `featurePatterns` loop on one sentence, threading the
`lastIndex` of each `/g` regex (one entry of `li` per pattern):
patterns that fail reset their `lastIndex` to 0, the first pattern that
matches advances its `lastIndex` to the match end and breaks. -/
def execPats : List FPat → List Nat → List Char →
    Option ExtractedFeature × List Nat
  | [], _, _ => (none, [])
  | _ :: _, [], _ => (none, [])
  | fp :: fps, li :: lis, sent =>
    match execG fp.pat sent li with
    | some (cap, endIdx) =>
      let featureText := trimJS cap
      let title :=
        if featureText.isEmpty then fp.dflt.data
        else fp.action.data ++ [' '] ++ upFirst featureText
      (some { title := String.mk (truncTitle title),
              description := "Extracted from: \"" ++ String.mk sent ++ "\"" },
       endIdx :: lis)
    | none =>
      let (r, lis') := execPats fps lis sent
      (r, 0 :: lis')

/-- The per-sentence loop of `extractFeaturesByPattern`. -/
def extractLoop : List (List Char) → List Nat → List ExtractedFeature
  | [], _ => []
  | sent :: rest, li =>
    let trimmed := trimJS sent
    if trimmed.length < 10 || testAtStart greetStartPat trimmed then
      extractLoop rest li
    else
      match execPats featurePats li trimmed with
      | (some f, li') => f :: extractLoop rest li'
      | (none, li') =>
        if reTest genericKeywordPat trimmed then
          let cleaned := trimJS (removeStart cleanedStartPat trimmed)
          { title := String.mk (upFirst cleaned),
            description := "Extracted from: \"" ++ String.mk trimmed ++ "\"" }
            :: extractLoop rest li'
        else extractLoop rest li'

/-- Deduplicate by case-insensitive title, keeping first occurrences. -/
def dedupeFeatures (seen : List String) : List ExtractedFeature → List ExtractedFeature
  | [] => []
  | f :: fs =>
    let key := toLowerS f.title
    if seen.contains key then dedupeFeatures seen fs
    else f :: dedupeFeatures (key :: seen) fs

/-- `extractFeaturesByPattern` from src/bot/extractor.ts (lines 32-122). -/
def extractFeaturesByPattern (text : String) : List ExtractedFeature :=
  let sentences := (splitPunct text.data).filter (fun s => (trimJS s).length > 5)
  dedupeFeatures [] (extractLoop sentences (featurePats.map (fun _ => 0)))

/-- `extractFeatures` from src/bot/extractor.ts (lines 124-180): the GLM
chat call is an oracle — `some parsed` when the call succeeds and the
content parses (the code coerces non-array JSON to `[]`, so the oracle
value is the final list), `none` on any failure, in which case the
deterministic pattern fallback runs.  The whole body is wrapped in
try/catch, so the embedding is a total function. -/
def extractFeatures (llm : Option (List ExtractedFeature)) (text : String) :
    List ExtractedFeature :=
  match llm with
  | some parsed => parsed
  | none => extractFeaturesByPattern text

/-! ### Setup-reply parsing (src/bot/helpers.ts, lines 161-215) -/

/-- Result of `parseProjectSetupReply`. -/
structure SetupInfo where
  project : Option String := none
  owner : Option String := none
  token : Option String := none
deriving DecidableEq, Repr

/-- `[:\s]+` -/
def colonSp : RE := .plusG isColonSpaceC

/-- `/project[:\s]+is[:\s]+@(\w+)|project[:\s]+@(\w+)/i` (the code uses
`match[1] || match[2]`). -/
def projPats : List Pat :=
  [ { pre := .seqs [.lit "project".data, colonSp, .lit "is".data, colonSp, .litCS ['@']],
      cap := .plusG isWordC, post := .eps },
    { pre := .seqs [.lit "project".data, colonSp, .litCS ['@']],
      cap := .plusG isWordC, post := .eps } ]

/-- `(@?\w+|@?\d+)` -/
def ownerCapRE : RE :=
  .alt (.seq (.opt (.litCS ['@'])) (.plusG isWordC))
       (.seq (.opt (.litCS ['@'])) (.plusG isDigitC))

/-- `/owner[:\s]+is[:\s]+(@?\w+|@?\d+)|owner[:\s]+(@?\w+|@?\d+)/i`. -/
def ownerPats : List Pat :=
  [ { pre := .seqs [.lit "owner".data, colonSp, .lit "is".data, colonSp],
      cap := ownerCapRE, post := .eps },
    { pre := .seqs [.lit "owner".data, colonSp],
      cap := ownerCapRE, post := .eps } ]

/-- `/\bi['\s]?m\s+(the\s+)?owner\b|\bi\s+am\s+(the\s+)?owner\b|\bowner\s+(is\s+)?me\b/i`
(tested against the lowercased text). -/
def ownerSelfPats : List Pat :=
  [ { pre := .seqs [.bnd, .lit "i".data, .opt (.cls (fun c => c = apos || isSpaceC c)),
                    .lit "m".data, sp1, optThe, .lit "owner".data, .bnd],
      cap := .eps, post := .eps },
    { pre := .seqs [.bnd, .lit "i".data, sp1, .lit "am".data, sp1, optThe,
                    .lit "owner".data, .bnd],
      cap := .eps, post := .eps },
    { pre := .seqs [.bnd, .lit "owner".data, sp1, .opt (.seqs [.lit "is".data, sp1]),
                    .lit "me".data, .bnd],
      cap := .eps, post := .eps } ]

/-- `/token[:\s]+is[:\s]+[^\s,]+|token[:\s]+[^\s,]+|will define token later/i`
(the code uses the whole match `match[0]`, so the capture is the whole
alternative). -/
def tokenPats : List Pat :=
  [ { pre := .eps,
      cap := .seqs [.lit "token".data, colonSp, .lit "is".data, colonSp,
                    .plusG isNotSpaceCommaC],
      post := .eps },
    { pre := .eps,
      cap := .seqs [.lit "token".data, colonSp, .plusG isNotSpaceCommaC],
      post := .eps },
    { pre := .eps, cap := .lit "will define token later".data, post := .eps } ]

/-- `/token[:\s]+is[:\s]+/i` (for the first `.replace(..., '')`). -/
def tokenRepl1 : Pat :=
  { pre := .seqs [.lit "token".data, colonSp, .lit "is".data, colonSp],
    cap := .eps, post := .eps }

/-- `/token[:\s]+/i` (for the second `.replace(..., '')`). -/
def tokenRepl2 : Pat :=
  { pre := .seqs [.lit "token".data, colonSp], cap := .eps, post := .eps }

/-- `/0x[a-fA-F0-9]{40}/` (whole match used). -/
def addressPat : Pat :=
  { pre := .eps, cap := .seq (.litCS "0x".data) (.rep 40 isHexC), post := .eps }

/-- `/\$([a-zA-Z]+)/` (group 1 used: the symbol without `$`). -/
def dollarPat : Pat :=
  { pre := .litCS ['$'], cap := .plusG isAlphaC, post := .eps }

/-- `/\$|token|0x[a-fA-F0-9]/i` (test only). -/
def tokenHintPat : Pat :=
  { pre := .alts [.litCS ['$'], .lit "token".data, .seq (.lit "0x".data) (.cls isHexC)],
    cap := .eps, post := .eps }

/-- `parseProjectSetupReply` from src/bot/helpers.ts (lines 161-215). -/
def parseProjectSetupReply (text : String) : SetupInfo :=
  let t := text.data
  let lower := toLowerL t
  let project := (findAlts projPats none t 0).map (fun r => String.mk r.1)
  let owner :=
    match findAlts ownerPats none t 0 with
    | some (cap, _) => some (String.mk (trimJS cap))
    | none =>
      if (findAlts ownerSelfPats none lower 0).isSome then some "me" else none
  let token₁ :=
    match findAlts tokenPats none t 0 with
    | some (match0, _) =>
      let tv := trimJS (removeFirst tokenRepl2 (removeFirst tokenRepl1 match0))
      if String.mk tv = "will define token later" then some "clanker"
      else if tv.isEmpty then none
      else some (String.mk tv)
    | none => none
  let token₂ :=
    match token₁ with
    | some tk => some tk
    | none => (findAlts [addressPat] none t 0).map (fun (r : List Char × Nat) => String.mk r.1)
  let token₃ :=
    match token₂ with
    | some tk => some tk
    | none => (findAlts [dollarPat] none t 0).map (fun (r : List Char × Nat) => String.mk r.1)
  let token₄ :=
    match token₃ with
    | some tk => some tk
    | none =>
      if (findAlts [tokenHintPat] none t 0).isSome then some "clanker" else none
  { project := project, owner := owner, token := token₄ }

/-! ### Owner resolution and bio lookup (src/bot/helpers.ts, lines 111-151
and 220-231).  The Neynar user lookups are oracles; both client calls
catch every error and return `null`, so the oracles are total. -/

structure UserRec where
  fid : Nat
  username : String
  bio : Option String := none
deriving DecidableEq, Repr

structure ParsedOwner where
  fid : Nat
  username : String
deriving DecidableEq, Repr

/-- `ownerInput.trim().replace('@', '')`: a string-pattern `replace`
removes only the first occurrence. -/
def removeFirstAt : List Char → List Char
  | [] => []
  | c :: cs => if c = '@' then cs else c :: removeFirstAt cs

/-- `parseOwner` from src/bot/helpers.ts: numeric input is an FID looked
up directly; otherwise `/^@?(\w+)$/` extracts a username, with a special
case mapping `roadmapr` to the bot's FID when that FID is configured
(non-zero, since `0` is falsy in `botFid && ...`). -/
def parseOwner (getUserO : Nat → Option UserRec) (lookupO : String → Option UserRec)
    (ownerInput : String) (botFid : Nat) : Option ParsedOwner :=
  let input := removeFirstAt (trimJS ownerInput.data)
  if !input.isEmpty && input.all isDigitC then
    let fid := natOfDigits input
    (getUserO fid).map (fun u => { fid := fid, username := u.username })
  else
    let core := match input with
      | '@' :: rest => rest
      | _ => input
    if !core.isEmpty && core.all isWordC then
      let username := String.mk core
      if toLowerS username = "roadmapr" && botFid ≠ 0 then
        some { fid := botFid, username := "roadmapr" }
      else
        (lookupO username).map (fun u => { fid := u.fid, username := u.username })
    else none

/-- `getProjectBio` from src/bot/helpers.ts: the looked-up profile's bio
text, if any. -/
def getProjectBio (lookupO : String → Option UserRec) (handle : String) : Option String :=
  match lookupO handle with
  | some u => u.bio
  | none => none

/-! ### Projects datastore (src/db/projects.ts) -/

inductive VotingType where
  | score
  | token
deriving DecidableEq, Repr

/-- The `Project` row shape selected by every query in src/db/projects.ts. -/
structure Project where
  id : String
  name : String
  project_handle : String
  voting_type : VotingType
  token_address : Option String := none
  owner_fid : Option Nat := none
deriving DecidableEq, Repr

/-- `getProjectByHandle`: `.eq('project_handle', handle.toLowerCase())`
followed by `.single()`, which errors (→ `null`) unless exactly one row
matches. -/
def getProjectByHandle (table : List Project) (handle : String) : Option Project :=
  match table.filter (fun p => p.project_handle == toLowerS handle) with
  | [p] => some p
  | _ => none

/-- Parameters of `createProject` (src/db/projects.ts lines 40-48). -/
structure CreateProjectParams where
  name : String
  project_handle : String
  owner_fid : Nat
  bio : Option String := none
  voting_type : Option VotingType := none
  token_address : Option String := none
  created_by_bot : Option Bool := none
deriving DecidableEq, Repr

/-- The row `createProject` inserts and selects back: the handle is
lowercased at write, `voting_type` defaults to `score`, and a missing or
empty (falsy) `token_address` is stored as `null`. -/
def createProjectRow (newId : String) (params : CreateProjectParams) : Project :=
  { id := newId,
    name := params.name,
    project_handle := toLowerS params.project_handle,
    voting_type := params.voting_type.getD .score,
    token_address := params.token_address.bind (fun s => if s = "" then none else some s),
    owner_fid := some params.owner_fid }

/-- `createProject` on a successful insert: the table gains the new row
(the owner's `project_admins` record is written too but never read by
this subsystem).  An insert error instead throws
`Failed to create project: <msg>`; the processor models that case with
its `projectInsertError` oracle. -/
def createProjectDb (table : List Project) (newId : String)
    (params : CreateProjectParams) : List Project × Project :=
  let row := createProjectRow newId params
  (table ++ [row], row)

/-- `getAllProjects` (row order — the DB sorts by name — is irrelevant to
every use, which only tests membership of handles). -/
def getAllProjects (table : List Project) : List Project := table

/-! ### Processor data (src/bot/processor.ts) -/

/-- The `Cast` shape used by the processor (src/neynar/client.ts). -/
structure CastMsg where
  hash : String
  text : String
  authorFid : Nat
  authorUsername : String
deriving DecidableEq, Repr

/-- The `SimilarFeature` rows returned by `findSimilarFeatures`
(src/bot/similarity.ts); any embedding or search failure yields `[]`
there, so the oracle below is total. -/
structure SimilarFeature where
  id : String
  title : String
  description : String
  similarity : ℚ
deriving DecidableEq, Repr

/-- Arguments of a `createFeature` call (src/db/features.ts lines 3-13). -/
structure FeatureParams where
  project_id : String
  title : String
  description : String
  submitter_fid : Nat
  source_cast_hash : Option String := none
  source_cast_author_fid : Option Nat := none
  parent_feature_id : Option String := none
  is_sub_item : Bool := false
  tags : List String := []
deriving DecidableEq, Repr

/-- Arguments of an `addFeatureSource` call (src/db/features.ts). -/
structure SourceParams where
  feature_id : String
  source_cast_hash : String
  source_cast_author_fid : Option Nat := none
  source_cast_text : Option String := none
deriving DecidableEq, Repr

/-- The `error` strings `processWebhook` writes into `bot_mentions`
(payloads carry the interpolated data, presentation abstracted). -/
inductive LogErr where
  | rateLimited
  | lowNeynarScore (score : ℚ)
  | noParentCast
  | parentCastNotFound
  | ownerNotFound (owner : String)
  | projectCreationFailed (msg : String)
  | awaitingProjectSetup
  | lowConfidenceIntent (intent : IntentKind)
  | projectsNotFound
  | multipleProjects
deriving DecidableEq, Repr

/-- The row `logBotMention` inserts into `bot_mentions`
(src/db/bot.ts): only the fields of its `details` interface are
persisted; extra properties passed at some call sites are dropped. -/
structure LogEntry where
  cast_hash : String
  mention_author_fid : Nat
  parent_cast_hash : Option String
  parent_cast_author_fid : Option Nat := none
  parent_cast_text : Option String := none
  detected_projects : Option (List String) := none
  features_created : Nat := 0
  features_merged : Nat := 0
  error_message : Option LogErr := none
deriving DecidableEq, Repr

/-- An entry of `results.created`. -/
structure CreatedRec where
  id : String
  title : String
  project : String
  subItems : Nat
deriving DecidableEq, Repr

/-- An entry of `results.merged`. -/
structure MergedRec where
  id : String
  title : String
  project : String
deriving DecidableEq, Repr

/-- The replies `processWebhook` posts, abstracted to the `BotVoice`
template used and its data (the templates are pure presentation,
src/bot/voice.ts). -/
inductive ReplyMsg where
  | rateLimited
  | lowNeynarScore
  | noParentCast
  | parentCastNotFound
  | ownerNotFound (owner : String)
  | projectCreated (projectId : String) (ownerUsername : String)
  | genericError (msg : String)
  | newProjectIntentDetected (handle : String) (authorFid : Nat)
  | noProjectDetected
  | projectNotFound (handles : List String)
  | multipleProjects (projects : List (String × String))
  | noFeatureExtracted
  | summary (created : List CreatedRec) (merged : List MergedRec)
deriving DecidableEq, Repr

/-- The environment of one `processWebhook` run: the webhook fields (after
the `webhookData.data || webhookData` normalization), the configuration,
and one oracle per external call.  Oracles whose TS counterpart never
throws (every Neynar client call catches internally; `findSimilarFeatures`
and `autoTag` catch and return empty) are total; `createProject` /
`createFeature` can throw, modeled by `projectInsertError` /
`featureInsert`. -/
structure Env where
  castHash : Option String
  authorFid : Option Nat
  parentHash : Option String
  /-- `ROADMAPR_BOT_FID` (default `0`) -/
  botFid : Nat
  /-- `MIN_NEYNAR_SCORE` (default `0.1`) -/
  minScore : ℚ
  /-- `SIMILARITY_THRESHOLD` (default `0.85`) -/
  simThreshold : ℚ
  /-- `MAX_FEATURES_PER_CAST` (default `5`) -/
  maxFeatures : Nat
  getCast : String → Option CastMsg
  getThread : String → List CastMsg
  /-- `checkProcessed(cast_hash)`: is this cast id already in `bot_mentions`? -/
  processed : Bool
  rateLimited : Bool
  neynarScore : ℚ
  getUserO : Nat → Option UserRec
  lookupO : String → Option UserRec
  projectsTable : List Project
  /-- `some msg` = the `projects` insert fails with that DB error message -/
  projectInsertError : Option String
  newProjectId : String
  intentLLM : IntentLLM
  extractLLM : Option (List ExtractedFeature)
  autoTagO : String → String → List String
  findSimilarO : String → String → String → List SimilarFeature
  /-- result of the n-th `features` insert of the run: `.ok id` or a DB
  error message (which `createFeature` turns into a thrown exception) -/
  featureInsert : Nat → Except String String

/-- Everything one `processWebhook` run does to the outside world, in
order within each effect kind, plus whether it escaped with an exception
(`thrown`): an exception propagates out of `processWebhook`; its caller
(src/index.ts) only logs it to the console. -/
structure Outcome where
  replies : List ReplyMsg := []
  logs : List LogEntry := []
  projectAttempts : List CreateProjectParams := []
  projectsCreated : List Project := []
  featureAttempts : List FeatureParams := []
  featuresCreated : List (String × FeatureParams) := []
  sourcesAdded : List SourceParams := []
  descUpdates : List (String × String) := []
  embedsStored : List (String × String × String) := []
  standalone : Bool := false
  intentRan : Bool := false
  llmIntentCalls : Nat := 0
  extractRan : Bool := false
  thrown : Option String := none
deriving DecidableEq, Repr

/-! ### Processor helpers (src/bot/processor.ts lines 540-633) -/

/-- `isReplyToBotCast` (lines 543-548): the parent cast's author is the
bot, by FID or by username. -/
def isReplyToBotCast (env : Env) (castHash : String) (botFid : Nat) : Bool :=
  match env.getCast castHash with
  | some cast =>
    cast.authorFid == botFid || toLowerS cast.authorUsername == "roadmapr"
  | none => false

/-- `/@(\w+)/g` as used on bot messages (`mention.slice(1)` = group 1). -/
def wordMentionPat : Pat := { pre := .litCS ['@'], cap := .plusG isWordC, post := .eps }

/-- `extractProjectHandleFromBotMessage` (lines 562-577). -/
def extractProjectHandleFromBotMessage (botText : String) : Option String :=
  if !(containsSub botText "NEW PROJECT ALERT!") && !(containsSub botText "NEW PROJECT ALERT")
  then none
  else
    (scanAll wordMentionPat botText.data).findSome? (fun cap =>
      let handle := String.mk (toLowerL cap)
      if handle != "roadmapr" && handle != "unknown" && handle.length > 1 then some handle
      else none)

/-- `[@]?` -/
def optAt : RE := .opt (.litCS ['@'])

/-- The `patterns` array of `extractProjectHandleFromThreadContext`
(lines 594-605), in source order. -/
def threadCtxPats : List Pat :=
  [ -- /create(?:\s+a)?(?:\s+new)?\s+project\s+(?:called\s+|named\s+)?[@]?(\w+)/i
    { pre := .seqs [.lit "create".data, .opt (.seqs [sp1, .lit "a".data]),
                    .opt (.seqs [sp1, .lit "new".data]), sp1, .lit "project".data, sp1,
                    optCalledNamed, optAt],
      cap := .plusG isWordC, post := .eps },
    -- /create\s+(?:a\s+|the\s+)?[@]?(\w+)\s+project\b/i
    { pre := .seqs [.lit "create".data, sp1, optAorThe, optAt],
      cap := .plusG isWordC, post := .seqs [sp1, .lit "project".data, .bnd] },
    -- /new\s+project\s+(?:called\s+|named\s+)?[@]?(\w+)/i
    { pre := .seqs [.lit "new".data, sp1, .lit "project".data, sp1, optCalledNamed, optAt],
      cap := .plusG isWordC, post := .eps },
    -- /make\s+(?:a\s+)?project\s+(?:called\s+|named\s+)?[@]?(\w+)/i
    { pre := .seqs [.lit "make".data, sp1, optA, .lit "project".data, sp1, optCalledNamed, optAt],
      cap := .plusG isWordC, post := .eps },
    -- /make\s+(?:a\s+|the\s+)?[@]?(\w+)\s+project\b/i
    { pre := .seqs [.lit "make".data, sp1, optAorThe, optAt],
      cap := .plusG isWordC, post := .seqs [sp1, .lit "project".data, .bnd] },
    -- /add\s+project\s+(?:called\s+|named\s+)?[@]?(\w+)/i
    { pre := .seqs [.lit "add".data, sp1, .lit "project".data, sp1, optCalledNamed, optAt],
      cap := .plusG isWordC, post := .eps },
    -- /set\s*up\s+(?:a\s+)?project\s+(?:called\s+|named\s+)?[@]?(\w+)/i
    { pre := .seqs [.lit "set".data, spS, .lit "up".data, sp1, optA, .lit "project".data, sp1,
                    optCalledNamed, optAt],
      cap := .plusG isWordC, post := .eps },
    -- /set\s*up\s+(?:a\s+|the\s+)?[@]?(\w+)\s+project\b/i
    { pre := .seqs [.lit "set".data, spS, .lit "up".data, sp1, optAorThe, optAt],
      cap := .plusG isWordC, post := .seqs [sp1, .lit "project".data, .bnd] },
    -- /deploy\s+project\s+[@]?(\w+)/i
    { pre := .seqs [.lit "deploy".data, sp1, .lit "project".data, sp1, optAt],
      cap := .plusG isWordC, post := .eps },
    -- /deploy\s+(?:a\s+|the\s+)?[@]?(\w+)\s+project\b/i
    { pre := .seqs [.lit "deploy".data, sp1, optAorThe, optAt],
      cap := .plusG isWordC, post := .seqs [sp1, .lit "project".data, .bnd] } ]

/-- The stopword set of `extractProjectHandleFromThreadContext`. -/
def threadCtxStopwords : List String :=
  ["a", "an", "the", "my", "our", "this", "that", "new", "project", "board", "alert"]

/-- One cast of the first loop of `extractProjectHandleFromThreadContext`. -/
def threadCtxScan (castText : String) : Option String :=
  let lowerT := toLowerS castText
  if containsSub lowerT "new project alert!" ||
     containsSub lowerT (String.mk ("let".data ++ [apos] ++ "s get this set up".data)) then
    none
  else
    threadCtxPats.findSome? (fun p =>
      match matchCap p castText.data with
      | some cap =>
        let handle := String.mk ((toLowerL cap).filter isLowerHandleC)
        if handle != "" && handle != "roadmapr" && !threadCtxStopwords.contains handle then
          some handle
        else none
      | none => none)

/-- `extractProjectHandleFromThreadContext` (lines 582-633). -/
def extractProjectHandleFromThreadContext (thread : List CastMsg) : Option String :=
  match thread.findSome? (fun c => threadCtxScan c.text) with
  | some h => some h
  | none =>
    thread.findSome? (fun c =>
      if containsSub c.text "NEW PROJECT ALERT!" && !(containsSub c.text "@unknown") then
        (matchCap wordMentionPat c.text.data).map (fun cap => String.mk (toLowerL cap))
      else none)

/-- `(setupInfo.token || 'clanker').toLowerCase()` (line 205; `||` takes
the default on a missing or empty — falsy — token). -/
def tokenInputOf (tokenOpt : Option String) : String :=
  toLowerS (match tokenOpt with
   | some t => if t = "" then "clanker" else t
   | none => "clanker")

/-- Lines 204-208: `tokenInput` decides the voting type (`token` exactly
for "clanker"), and the token address is kept only in the non-clanker
case. -/
def determineVoting (tokenOpt : Option String) : VotingType × Option String :=
  if tokenInputOf tokenOpt = "clanker" then (VotingType.token, none)
  else (VotingType.score, tokenOpt)

/-- A `createFeature` call (src/db/features.ts lines 15-48): an insert
error becomes a thrown `Failed to create feature: <msg>`. -/
def createFeatureCall (env : Env) (idx : Nat) : Except String String :=
  match env.featureInsert idx with
  | .ok newId => .ok newId
  | .error msg => .error ("Failed to create feature: " ++ msg)

/-! ### The per-feature loop (src/bot/processor.ts lines 355-442) -/

/-- Effects of processing one (feature, project) pair. -/
structure ItemResult where
  featureAttempts : List FeatureParams := []
  featuresCreated : List (String × FeatureParams) := []
  sourcesAdded : List SourceParams := []
  descUpdates : List (String × String) := []
  embedsStored : List (String × String × String) := []
  createdEntry : Option CreatedRec := none
  mergedEntry : Option MergedRec := none
  nextIdx : Nat
  thrown : Option String := none
deriving DecidableEq, Repr

/-- The separator under which a duplicate's description is appended. -/
def mergeSep : String := "\n\n---\n\nAdditional feedback:\n"

/-- The sub-item loop (lines 418-432): each sub-item is created and
embedded; a throw aborts the rest. -/
def createSubItems (env : Env) (projectId parentId : String) (submitterFid : Nat) :
    List SubItem → Nat → ItemResult
  | [], idx => { nextIdx := idx }
  | sub :: rest, idx =>
    let params : FeatureParams :=
      { project_id := projectId, title := sub.title, description := sub.description,
        submitter_fid := submitterFid, parent_feature_id := some parentId,
        is_sub_item := true }
    match createFeatureCall env idx with
    | .error msg => { featureAttempts := [params], nextIdx := idx + 1, thrown := some msg }
    | .ok subId =>
      let r := createSubItems env projectId parentId submitterFid rest (idx + 1)
      { featureAttempts := params :: r.featureAttempts,
        featuresCreated := (subId, params) :: r.featuresCreated,
        embedsStored := (subId, sub.title, sub.description) :: r.embedsStored,
        nextIdx := r.nextIdx, thrown := r.thrown }

/-- The CREATE branch (lines 393-440): create the feature, store its
embedding, attach the source, create sub-items, then record the
`results.created` entry. -/
def processItemCreate (env : Env) (parentHash : String) (parentCast : CastMsg)
    (feature : ExtractedFeature) (project : Project) (idx : Nat) (tags : List String) :
    ItemResult :=
  let params : FeatureParams :=
    { project_id := project.id, title := feature.title, description := feature.description,
      submitter_fid := parentCast.authorFid, source_cast_hash := some parentHash,
      source_cast_author_fid := some parentCast.authorFid, tags := tags }
  match createFeatureCall env idx with
  | .error msg => { featureAttempts := [params], nextIdx := idx + 1, thrown := some msg }
  | .ok fid =>
    let sub := createSubItems env project.id fid parentCast.authorFid feature.subItems (idx + 1)
    { featureAttempts := params :: sub.featureAttempts,
      featuresCreated := (fid, params) :: sub.featuresCreated,
      sourcesAdded := [{ feature_id := fid, source_cast_hash := parentHash,
                         source_cast_author_fid := some parentCast.authorFid,
                         source_cast_text := some parentCast.text }],
      embedsStored := (fid, feature.title, feature.description) :: sub.embedsStored,
      createdEntry :=
        if sub.thrown.isSome then none
        else some { id := fid, title := feature.title, project := project.name,
                    subItems := feature.subItems.length },
      nextIdx := sub.nextIdx, thrown := sub.thrown }

/-- One iteration of the nested per-feature/per-project loop (lines
355-442): tag, similarity-search, then MERGE when the top candidate
strictly exceeds the threshold, else CREATE. -/
def processItem (env : Env) (parentHash : String) (parentCast : CastMsg)
    (feature : ExtractedFeature) (project : Project) (idx : Nat) : ItemResult :=
  let tags := env.autoTagO feature.title feature.description
  let similar := env.findSimilarO project.id feature.title feature.description
  match similar.head? with
  | some top =>
    if top.similarity > env.simThreshold then
      { sourcesAdded := [{ feature_id := top.id, source_cast_hash := parentHash,
                           source_cast_author_fid := some parentCast.authorFid,
                           source_cast_text := some parentCast.text }],
        descUpdates :=
          -- `feature.description.length > existing.description.length * 0.5`,
          -- stated exactly over ℕ as 2·newLen > oldLen
          if 2 * feature.description.length > top.description.length then
            [(top.id, top.description ++ mergeSep ++ feature.description)]
          else [],
        mergedEntry := some { id := top.id, title := top.title, project := project.name },
        nextIdx := idx }
    else processItemCreate env parentHash parentCast feature project idx tags
  | none => processItemCreate env parentHash parentCast feature project idx tags

/-- Accumulated loop state. -/
structure LoopSt where
  created : List CreatedRec := []
  merged : List MergedRec := []
  featureAttempts : List FeatureParams := []
  featuresCreated : List (String × FeatureParams) := []
  sourcesAdded : List SourceParams := []
  descUpdates : List (String × String) := []
  embedsStored : List (String × String × String) := []
  idx : Nat := 0
  thrown : Option String := none
deriving DecidableEq, Repr

/-- Fold one item's effects into the loop state. -/
def stepSt (st : LoopSt) (r : ItemResult) : LoopSt :=
  { created := st.created ++ r.createdEntry.toList,
    merged := st.merged ++ r.mergedEntry.toList,
    featureAttempts := st.featureAttempts ++ r.featureAttempts,
    featuresCreated := st.featuresCreated ++ r.featuresCreated,
    sourcesAdded := st.sourcesAdded ++ r.sourcesAdded,
    descUpdates := st.descUpdates ++ r.descUpdates,
    embedsStored := st.embedsStored ++ r.embedsStored,
    idx := r.nextIdx, thrown := r.thrown }

/-- Inner loop over the resolved projects (a thrown exception unwinds). -/
def loopProjects (env : Env) (parentHash : String) (parentCast : CastMsg)
    (feature : ExtractedFeature) : List Project → LoopSt → LoopSt
  | [], st => st
  | p :: ps, st =>
    if st.thrown.isSome then st
    else
      loopProjects env parentHash parentCast feature ps
        (stepSt st (processItem env parentHash parentCast feature p st.idx))

/-- Outer loop over the extracted features. -/
def loopFeatures (env : Env) (parentHash : String) (parentCast : CastMsg) :
    List ExtractedFeature → List Project → LoopSt → LoopSt
  | [], _, st => st
  | f :: fs, projs, st =>
    if st.thrown.isSome then st
    else
      loopFeatures env parentHash parentCast fs projs
        (loopProjects env parentHash parentCast f projs st)

/-! ### The orchestrator `processWebhook` (src/bot/processor.ts lines
53-469), split at its own stage boundaries. -/

/-- The project-setup branch (lines 179-241): resolve the owner, fetch
the bio, determine voting, create the project (the only write wrapped in
try/catch — a failure is logged and answered with a generic error). -/
def processSetup (env : Env) (castHash : String) (authorFid : Nat) (parentHash : String)
    (setupInfo : SetupInfo) (ownerRaw handle : String) : Outcome :=
  let ownerInput := if ownerRaw = "me" then toString authorFid else ownerRaw
  match parseOwner env.getUserO env.lookupO ownerInput env.botFid with
  | none =>
    { logs := [{ cast_hash := castHash, mention_author_fid := authorFid,
                 parent_cast_hash := some parentHash,
                 error_message := some (.ownerNotFound ownerRaw) }],
      replies := [.ownerNotFound ownerRaw] }
  | some parsedOwner =>
    let bioResult := getProjectBio env.lookupO handle
    let vt := determineVoting setupInfo.token
    let params : CreateProjectParams :=
      { name := String.mk (upFirst handle.data),
        project_handle := handle,
        owner_fid := parsedOwner.fid,
        bio := bioResult,
        voting_type := some vt.1,
        -- `...(token_address && { token_address })`: a falsy address is omitted
        token_address := vt.2.bind (fun s => if s = "" then none else some s),
        created_by_bot := some true }
    match env.projectInsertError with
    | some msg =>
      { projectAttempts := [params],
        logs := [{ cast_hash := castHash, mention_author_fid := authorFid,
                   parent_cast_hash := some parentHash,
                   error_message :=
                     some (.projectCreationFailed ("Failed to create project: " ++ msg)) }],
        replies := [.genericError "Failed to create project"] }
    | none =>
      let row := createProjectRow env.newProjectId params
      { projectAttempts := [params],
        projectsCreated := [row],
        logs := [{ cast_hash := castHash, mention_author_fid := authorFid,
                   parent_cast_hash := some parentHash }],
        replies := [.projectCreated row.id parsedOwner.username] }

/-- Feature extraction and the per-feature loop (lines 329-468): extract,
bail out politely on zero items, else tag/search/merge-or-create each item
and finish with one log, one reply and an optional announcement — unless
a datastore throw aborted the loop, in which case the exception escapes
before any log or reply. -/
def processExtraction (env : Env) (castHash : String) (authorFid : Nat)
    (parentHash : String) (parentCast : CastMsg) (fullContext : String)
    (detectedProjects : List String) (projects : List Project) (llmCalls : Nat) : Outcome :=
  let extracted := extractFeatures env.extractLLM fullContext
  if extracted.isEmpty then
    { intentRan := true, llmIntentCalls := llmCalls, extractRan := true,
      logs := [{ cast_hash := castHash, mention_author_fid := authorFid,
                 parent_cast_hash := some parentHash,
                 parent_cast_author_fid := some parentCast.authorFid,
                 parent_cast_text := some parentCast.text,
                 detected_projects := some detectedProjects,
                 features_created := 0 }],
      replies := [.noFeatureExtracted] }
  else
    let featuresToProcess := extracted.take env.maxFeatures
    let st := loopFeatures env parentHash parentCast featuresToProcess projects {}
    match st.thrown with
    | some msg =>
      { intentRan := true, llmIntentCalls := llmCalls, extractRan := true,
        featureAttempts := st.featureAttempts, featuresCreated := st.featuresCreated,
        sourcesAdded := st.sourcesAdded, descUpdates := st.descUpdates,
        embedsStored := st.embedsStored, thrown := some msg }
    | none =>
      { intentRan := true, llmIntentCalls := llmCalls, extractRan := true,
        featureAttempts := st.featureAttempts, featuresCreated := st.featuresCreated,
        sourcesAdded := st.sourcesAdded, descUpdates := st.descUpdates,
        embedsStored := st.embedsStored,
        logs := [{ cast_hash := castHash, mention_author_fid := authorFid,
                   parent_cast_hash := some parentHash,
                   parent_cast_author_fid := some parentCast.authorFid,
                   parent_cast_text := some parentCast.text,
                   detected_projects := some detectedProjects,
                   features_created := st.created.length,
                   features_merged := st.merged.length }],
        replies := [.summary st.created st.merged],
        standalone := st.created.length > 0 }

/-- Target-project resolution (lines 278-327): low-confidence bailout,
then handle lookup with "none found" and "more than one" replies. -/
def processTargets (env : Env) (castHash : String) (authorFid : Nat) (parentHash : String)
    (parentCast : CastMsg) (fullContext : String) (intent : DetectedIntent)
    (llmCalls : Nat) : Outcome :=
  let detectedProjects := intent.targetProjects
  if detectedProjects.isEmpty && decide (intent.confidence < mkRat 5 10) then  -- confidence < 0.5
    { intentRan := true, llmIntentCalls := llmCalls,
      logs := [{ cast_hash := castHash, mention_author_fid := authorFid,
                 parent_cast_hash := some parentHash,
                 error_message := some (.lowConfidenceIntent intent.intent) }],
      replies := [.noProjectDetected] }
  else
    let projects := detectedProjects.filterMap (getProjectByHandle env.projectsTable)
    if projects.isEmpty then
      { intentRan := true, llmIntentCalls := llmCalls,
        logs := [{ cast_hash := castHash, mention_author_fid := authorFid,
                   parent_cast_hash := some parentHash,
                   parent_cast_author_fid := some parentCast.authorFid,
                   parent_cast_text := some parentCast.text,
                   detected_projects := some detectedProjects,
                   error_message := some .projectsNotFound }],
        replies := [.projectNotFound detectedProjects] }
    else if projects.length > 1 then
      { intentRan := true, llmIntentCalls := llmCalls,
        logs := [{ cast_hash := castHash, mention_author_fid := authorFid,
                   parent_cast_hash := some parentHash,
                   parent_cast_author_fid := some parentCast.authorFid,
                   parent_cast_text := some parentCast.text,
                   detected_projects := some detectedProjects,
                   error_message := some .multipleProjects }],
        replies := [.multipleProjects (projects.map (fun p => (p.project_handle, p.name)))] }
    else
      processExtraction env castHash authorFid parentHash parentCast fullContext
        detectedProjects projects llmCalls

/-- Branching on a classification result (lines 255-276): a
`create_project` intent with a usable (truthy) name answers with the
setup instructions and terminates — the project is not created yet. -/
def processIntentBranch (env : Env) (castHash : String) (authorFid : Nat)
    (parentHash : String) (parentCast : CastMsg) (fullContext : String)
    (intent : DetectedIntent) (llmCalls : Nat) : Outcome :=
  let usableName : Option String :=
    match intent.newProjectName with
    | some n => if n = "" then none else some n
    | none => none
  match intent.intent, usableName with
  | .create_project, some n =>
    let handle₀ := toLowerS n
    let projectHandle :=
      if handle₀ = "unknown" || handle₀ = "<project name>" then
        match extractProjectHandleFromThreadContext (env.getThread parentHash) with
        | some h => h
        | none => handle₀
      else handle₀
    { intentRan := true, llmIntentCalls := llmCalls,
      logs := [{ cast_hash := castHash, mention_author_fid := authorFid,
                 parent_cast_hash := some parentHash,
                 detected_projects := some [projectHandle],
                 error_message := some .awaitingProjectSetup }],
      replies := [.newProjectIntentDetected projectHandle authorFid] }
  | _, _ =>
    processTargets env castHash authorFid parentHash parentCast fullContext intent llmCalls

/-- Intent classification (lines 243-254): classify the current cast
against the known projects, then branch on the result. -/
def processIntentPath (env : Env) (castHash : String) (authorFid : Nat)
    (parentHash : String) (parentCast : CastMsg) (currentCastText fullContext : String) :
    Outcome :=
  let allKnownProjects := (getAllProjects env.projectsTable).map (fun p => p.project_handle)
  let res := detectIntent env.intentLLM currentCastText allKnownProjects
  processIntentBranch env castHash authorFid parentHash parentCast fullContext res.1 res.2

/-- Context assembly and the setup-reply short-circuit (lines 126-241).
In the source `isReplyToBot` is computed before the guards (line 69); it
is a pure read of the same oracle and is only consumed here, so it is
computed here. -/
def processContext (env : Env) (castHash : String) (authorFid : Nat)
    (parentHash : String) (parentCast : CastMsg) : Outcome :=
  let isReplyToBot := isReplyToBotCast env parentHash env.botFid
  let currentCastText :=
    match env.getCast castHash with
    | some c => c.text
    | none => ""
  let thread := env.getThread parentHash
  let fullContext :=
    if isReplyToBot then
      String.intercalate "\n\n---\n\n"
        ((thread.map (fun c => c.text)).reverse ++
         [parentCast.text, "Reply: " ++ currentCastText])
    else
      String.intercalate "\n\n---\n\n"
        (currentCastText :: parentCast.text :: thread.map (fun c => c.text))
  let setupInfo := parseProjectSetupReply currentCastText
  let pendingProjectHandle :=
    match extractProjectHandleFromBotMessage parentCast.text with
    | some h => some h
    | none => thread.findSome? (fun c => extractProjectHandleFromBotMessage c.text)
  match setupInfo.owner, pendingProjectHandle with
  | some ownerRaw, some handle =>
    processSetup env castHash authorFid parentHash setupInfo ownerRaw handle
  | _, _ =>
    processIntentPath env castHash authorFid parentHash parentCast
      currentCastText fullContext

/-- `processWebhook` (lines 53-469).  The stages, in source order:
missing-fields guard, bot-loop guard, idempotency skip, rate limit,
Neynar score, parent requirements, then context assembly and the
setup-reply or intent path (`processContext`). -/
def processWebhook (env : Env) : Outcome :=
  match env.castHash, env.authorFid with
  | some castHash, some authorFid =>
    -- `if (!cast_hash || !author_fid)`: a falsy ("" / 0) field also aborts
    if castHash = "" || authorFid = 0 then {}
    else if authorFid == env.botFid then {}
    else if env.processed then {}
    else if env.rateLimited then
      { logs := [{ cast_hash := castHash, mention_author_fid := authorFid,
                   parent_cast_hash := env.parentHash,
                   error_message := some .rateLimited }],
        replies := [.rateLimited] }
    else if env.neynarScore < env.minScore then
      { logs := [{ cast_hash := castHash, mention_author_fid := authorFid,
                   parent_cast_hash := env.parentHash,
                   error_message := some (.lowNeynarScore env.neynarScore) }],
        replies := [.lowNeynarScore] }
    else
      match env.parentHash with
      | none =>
        { logs := [{ cast_hash := castHash, mention_author_fid := authorFid,
                     parent_cast_hash := none,
                     error_message := some .noParentCast }],
          replies := [.noParentCast] }
      | some parentHash =>
        match env.getCast parentHash with
        | none =>
          { logs := [{ cast_hash := castHash, mention_author_fid := authorFid,
                       parent_cast_hash := some parentHash,
                       error_message := some .parentCastNotFound }],
            replies := [.parentCastNotFound] }
        | some parentCast =>
          processContext env castHash authorFid parentHash parentCast
  | _, _ => {}

/-! ### Concrete scenario environments -/

/-- An `IntentLLM` oracle where every provider call fails. -/
def allLLMDown : IntentLLM := { openaiKey := true, openai := none, glm := fun _ => none }

/-- Scenario F current cast: the user's setup reply. -/
def widgetReplyCast : CastMsg :=
  { hash := "0xcur", text := "I\x27m the owner, token: clanker",
    authorFid := 777, authorUsername := "alice" }

/-- Scenario F parent cast: the bot's earlier project alert. -/
def widgetAlertCast : CastMsg :=
  { hash := "0xpar", text := "NEW PROJECT ALERT! @widget",
    authorFid := 999, authorUsername := "roadmapr" }

/-- Scenario F environment: a reply to the bot's "NEW PROJECT ALERT!
@widget" message saying "I'm the owner, token: clanker"; the author's
account (FID 777) resolves, and the datastore accepts the insert. -/
def scenarioFEnv : Env :=
  { castHash := some "0xcur", authorFid := some 777, parentHash := some "0xpar",
    botFid := 999, minScore := mkRat 1 10, simThreshold := mkRat 85 100, maxFeatures := 5,
    getCast := fun h =>
      if h = "0xpar" then some widgetAlertCast
      else if h = "0xcur" then some widgetReplyCast
      else none,
    getThread := fun _ => [],
    processed := false, rateLimited := false, neynarScore := mkRat 9 10,
    getUserO := fun n => if n = 777 then some { fid := 777, username := "alice" } else none,
    lookupO := fun _ => none,
    projectsTable := [], projectInsertError := none, newProjectId := "proj-1",
    intentLLM := allLLMDown, extractLLM := none,
    autoTagO := fun _ _ => [], findSimilarO := fun _ _ _ => [],
    featureInsert := fun _ => .ok "feat-0" }

/-- The `projects` row of the existing project `@base`. -/
def baseRow : Project :=
  { id := "p-base", name := "Base", project_handle := "base",
    voting_type := .score, token_address := none, owner_fid := some 42 }

/-- A feature-request environment: "add dark mode to @base" replying to
a cast by FID 555, with `@base` known, extraction succeeding with one
item and the similarity search finding nothing. -/
def darkModeEnv : Env :=
  { castHash := some "0xcur", authorFid := some 777, parentHash := some "0xpar",
    botFid := 999, minScore := mkRat 1 10, simThreshold := mkRat 85 100, maxFeatures := 5,
    getCast := fun h =>
      if h = "0xpar" then
        some { hash := "0xpar", text := "check this out", authorFid := 555,
               authorUsername := "bob" }
      else if h = "0xcur" then
        some { hash := "0xcur", text := "add dark mode to @base", authorFid := 777,
               authorUsername := "alice" }
      else none,
    getThread := fun _ => [],
    processed := false, rateLimited := false, neynarScore := mkRat 9 10,
    getUserO := fun _ => none, lookupO := fun _ => none,
    projectsTable := [baseRow], projectInsertError := none, newProjectId := "proj-1",
    intentLLM := allLLMDown,
    extractLLM := some [{ title := "Add dark mode", description := "Users want a dark theme" }],
    autoTagO := fun _ _ => [], findSimilarO := fun _ _ _ => [],
    featureInsert := fun _ => .ok "feat-0" }

/-- `darkModeEnv` with the `features` insert failing with `msg`. -/
def featureFailEnv (msg : String) : Env :=
  { darkModeEnv with featureInsert := fun _ => .error msg }

/-- `scenarioFEnv` with the `projects` insert failing with `msg`. -/
def projectFailEnv (msg : String) : Env :=
  { scenarioFEnv with projectInsertError := some msg }

/-- The dark-mode feature item the extractor returns in `darkModeEnv`. -/
def darkModeFeature : ExtractedFeature :=
  { title := "Add dark mode", description := "Users want a dark theme" }

/-- The parent cast of `darkModeEnv`. -/
def bobCast : CastMsg :=
  { hash := "0xpar", text := "check this out", authorFid := 555, authorUsername := "bob" }

/-- An existing near-duplicate found at similarity 0.92 (threshold 0.85). -/
def mergeTop : SimilarFeature :=
  { id := "feat-old", title := "Dark mode", description := "old description text",
    similarity := mkRat 92 100 }

/-- `darkModeEnv` where the similarity search reports `mergeTop`. -/
def mergeEnv : Env :=
  { darkModeEnv with findSimilarO := fun _ _ _ => [mergeTop] }

/-- Creation parameters used by the C7 witness (mixed-case handle). -/
def baseParams : CreateProjectParams :=
  { name := "Base", project_handle := "Base", owner_fid := 1 }

/-- The `createProject` arguments of the scenario-F run. -/
def widgetParams : CreateProjectParams :=
  { name := "Widget", project_handle := "widget", owner_fid := 777,
    bio := none, voting_type := some .token, token_address := none,
    created_by_bot := some true }

end Roadmapr

namespace Roadmapr

/-! ### Auxiliary lemmas -/

/-- Every element surviving `filter p` satisfies `p`. -/
theorem filter_all_self (p : Char → Bool) (l : List Char) :
    (l.filter p).all p = true := by
  induction l with
  | nil => rfl
  | cons c cs ih =>
    by_cases h : p c = true
    · simp [List.filter, h, ih]
    · simp only [Bool.not_eq_true] at h
      simp [List.filter, h, ih]

/-- If every model's call fails, the GLM ladder yields nothing. -/
theorem glmFallback_eq_none (env : IntentLLM) (ms : List String)
    (h : ∀ m ∈ ms, env.glm m = none) : glmFallback env ms = none := by
  induction ms with
  | nil => rfl
  | cons m ms ih =>
    unfold glmFallback
    rw [h m (by simp), ih (fun x hx => h x (by simp [hx]))]
    rfl

/-- A successful `createProjectScan` result is non-empty, not a stopword,
and consists only of `[a-z0-9_-]` characters (it is the capture
lowercased and stripped). -/
theorem createProjectCandidate_props (clean : List Char) (p : Pat) (name : String)
    (h : createProjectCandidate clean p = some name) :
    name ≠ "" ∧ stopwords.contains name = false ∧
      name.data.all isLowerHandleC = true := by
  unfold createProjectCandidate at h
  cases hm : matchCap p clean with
  | none =>
    simp only [hm] at h
    exact Option.noConfusion h
  | some cap =>
    simp only [hm] at h
    by_cases h1 : (normCandidate cap).isEmpty = true
    · rw [if_pos h1] at h
      exact Option.noConfusion h
    · rw [if_neg h1] at h
      by_cases h2 : stopwords.contains (String.mk (normCandidate cap)) = true
      · rw [if_pos h2] at h
        exact Option.noConfusion h
      · rw [if_neg h2] at h
        obtain rfl : String.mk (normCandidate cap) = name := by injection h
        refine ⟨?_, by simpa using h2, ?_⟩
        · intro he
          have hnil : normCandidate cap = [] := congrArg String.data he
          rw [List.isEmpty_iff] at h1
          exact h1 hnil
        · exact filter_all_self isLowerHandleC (toLowerL cap)

/-- A successful scan over any pattern list yields a usable name. -/
theorem findSome_candidate_props (clean : List Char) (pats : List Pat) (name : String)
    (h : pats.findSome? (createProjectCandidate clean) = some name) :
    name ≠ "" ∧ stopwords.contains name = false ∧
      name.data.all isLowerHandleC = true := by
  induction pats with
  | nil => simp [List.findSome?] at h
  | cons p ps ih =>
    rw [List.findSome?_cons] at h
    cases hc : createProjectCandidate clean p with
    | none =>
      rw [hc] at h
      exact ih h
    | some n =>
      rw [hc] at h
      obtain rfl : n = name := by injection h
      exact createProjectCandidate_props clean p n hc

/-- A successful `createProjectScan` result is non-empty, not a stopword,
and consists only of `[a-z0-9_-]` characters (it is the capture
lowercased and stripped). -/
theorem createProjectScan_props (clean : List Char) (name : String)
    (h : createProjectScan clean = some name) :
    name ≠ "" ∧ stopwords.contains name = false ∧
      name.data.all isLowerHandleC = true :=
  findSome_candidate_props clean createProjectPats name h

/-- A run of the project-setup branch writes exactly one audit log. -/
theorem processSetup_logs_len (env : Env) (c : String) (a : Nat) (p : String)
    (si : SetupInfo) (o hd : String) :
    (processSetup env c a p si o hd).logs.length = 1 := by
  simp only [processSetup]
  rcases hpo : parseOwner env.getUserO env.lookupO
      (if o = "me" then toString a else o) env.botFid with _ | po
  · simp [hpo]
  · rcases hin : env.projectInsertError with _ | m <;> simp [hpo, hin]

/-- The extraction-and-loop stage writes at most one audit log. -/
theorem processExtraction_logs_le (env : Env) (c : String) (a : Nat) (p : String)
    (pc : CastMsg) (fc : String) (dp : List String) (projs : List Project)
    (llm : Nat) :
    (processExtraction env c a p pc fc dp projs llm).logs.length ≤ 1 := by
  simp only [processExtraction]
  split
  · simp
  · split
    · simp
    · simp

/-- The target-resolution stage writes at most one audit log. -/
theorem processTargets_logs_le (env : Env) (c : String) (a : Nat) (p : String)
    (pc : CastMsg) (fc : String) (intent : DetectedIntent) (llm : Nat) :
    (processTargets env c a p pc fc intent llm).logs.length ≤ 1 := by
  simp only [processTargets]
  split
  · simp
  · split
    · simp
    · split
      · simp
      · exact processExtraction_logs_le _ _ _ _ _ _ _ _ _

/-- The post-classification branch writes at most one audit log. -/
theorem processIntentBranch_logs_le (env : Env) (c : String) (a : Nat) (p : String)
    (pc : CastMsg) (fc : String) (intent : DetectedIntent) (llm : Nat) :
    (processIntentBranch env c a p pc fc intent llm).logs.length ≤ 1 := by
  simp only [processIntentBranch]
  split
  · simp
  · exact processTargets_logs_le _ _ _ _ _ _ _ _

/-- The intent-classification stage writes at most one audit log. -/
theorem processIntentPath_logs_le (env : Env) (c : String) (a : Nat) (p : String)
    (pc : CastMsg) (cur fc : String) :
    (processIntentPath env c a p pc cur fc).logs.length ≤ 1 := by
  simp only [processIntentPath]
  exact processIntentBranch_logs_le _ _ _ _ _ _ _ _

/-- The context stage delegates to the setup or intent path, so it too
writes at most one audit log. -/
theorem processContext_logs_le (env : Env) (c : String) (a : Nat) (p : String)
    (pc : CastMsg) :
    (processContext env c a p pc).logs.length ≤ 1 := by
  simp only [processContext]
  split
  · exact le_of_eq (processSetup_logs_len _ _ _ _ _ _ _)
  · exact processIntentPath_logs_le _ _ _ _ _ _ _

/-! ### Claim theorems -/

/-- C1: for every input text and known-project list on which
`detectIntentByPattern` reaches confidence ≥ 0.7, `detectIntent` returns
exactly that pattern result and makes zero LLM chat-completion calls. -/
theorem c1_fast_path_purity (env : IntentLLM) (text : String) (known : List String)
    (h : (detectIntentByPattern text known).confidence ≥ mkRat 7 10) :
    detectIntent env text known = (detectIntentByPattern text known, 0) := by
  simp only [detectIntent]
  rw [if_pos h]

/-- C1 witness: "create a new project called Castoors" matches the
pattern fast path at confidence 0.75, so even with every LLM provider
configured but failing, no call is made. -/
theorem c1_fast_path_purity_witness :
    (detectIntentByPattern "create a new project called Castoors" []).confidence ≥ mkRat 7 10 ∧
    detectIntent allLLMDown "create a new project called Castoors" [] =
      (detectIntentByPattern "create a new project called Castoors" [], 0) :=
  ⟨by decide, c1_fast_path_purity allLLMDown _ _ (by decide)⟩

/-- C3: when every attempted LLM provider call fails (OpenAI — if its key
is configured at all — and all four GLM models), `detectIntent` returns
the deterministic pattern result for the same text, and `extractFeatures`
returns the deterministic pattern extraction; both are total functions
(the TS originals catch every failure). -/
theorem c3_llm_failure_fallback (env : IntentLLM) (text : String) (known : List String)
    (h1 : env.openaiKey = true → env.openai = none)
    (h2 : ∀ m ∈ MODELS_TO_TRY, env.glm m = none) :
    (detectIntent env text known).1 = detectIntentByPattern text known ∧
    extractFeatures none text = extractFeaturesByPattern text := by
  refine ⟨?_, rfl⟩
  simp only [detectIntent]
  by_cases hc : (detectIntentByPattern text known).confidence ≥ mkRat 7 10
  · rw [if_pos hc]
  · rw [if_neg hc]
    have hop : (if env.openaiKey then env.openai else none) = none := by
      cases hk : env.openaiKey
      · simp
      · simpa using h1 hk
    rw [hop, glmFallback_eq_none env MODELS_TO_TRY h2]

/-- C3 witness: with every provider down, classification and extraction
of a concrete text both equal their pattern fallbacks. -/
theorem c3_llm_failure_fallback_witness :
    (detectIntent allLLMDown "fix the login bug please" []).1 =
      detectIntentByPattern "fix the login bug please" [] ∧
    extractFeatures none "fix the login bug please" =
      extractFeaturesByPattern "fix the login bug please" :=
  c3_llm_failure_fallback allLLMDown "fix the login bug please" []
    (fun _ => rfl) (fun _ _ => rfl)

/-- C8 counterexample: the claim promises at least two items — one "Add
…" for dark mode and one "Fix …" for the login bug.  On the claimed input
with every LLM provider unavailable, the pattern fallback yields exactly
ONE item ("Fix Login"): the sentence "I wish there was dark mode" matches
no extraction pattern ("wish" is not an action keyword), so no "Add" item
exists. -/
theorem c8_counterexample :
    extractFeatures none "I wish there was dark mode. Also fix the login bug." =
      [{ title := "Fix Login",
         description := "Extracted from: \"Also fix the login bug\"" }] ∧
    (extractFeatures none "I wish there was dark mode. Also fix the login bug.").length
      < 2 ∧
    (extractFeatures none "I wish there was dark mode. Also fix the login bug.").all
      (fun f => !(isPrefOf "Add".data f.title.data)) := by
  decide

/-- C8 as amended: with the LLM unavailable, the pattern fallback on
"I wish there was dark mode. Also fix the login bug." yields exactly one
item, titled "Fix Login" (starting with "Fix", from the login-bug
sentence); the dark-mode sentence yields nothing. -/
theorem c8_amended :
    extractFeaturesByPattern "I wish there was dark mode. Also fix the login bug." =
      [{ title := "Fix Login",
         description := "Extracted from: \"Also fix the login bug\"" }] ∧
    isPrefOf "Fix".data "Fix Login".data = true := by
  decide

/-- C2: when the similarity search returns a non-empty list whose top
candidate strictly exceeds the threshold, the per-item processing creates
no Feature (no `createFeature` call at all), attaches exactly one
FeatureSource to the existing feature, and appends — under the separator,
never replacing — the new description exactly when the new description's
length exceeds half the existing one's. -/
theorem c2_merge_monotonicity (env : Env) (parentHash : String) (parentCast : CastMsg)
    (feature : ExtractedFeature) (project : Project) (idx : Nat)
    (top : SimilarFeature) (rest : List SimilarFeature)
    (hs : env.findSimilarO project.id feature.title feature.description = top :: rest)
    (hgt : top.similarity > env.simThreshold) :
    processItem env parentHash parentCast feature project idx =
      { sourcesAdded := [{ feature_id := top.id, source_cast_hash := parentHash,
                           source_cast_author_fid := some parentCast.authorFid,
                           source_cast_text := some parentCast.text }],
        descUpdates :=
          if 2 * feature.description.length > top.description.length then
            [(top.id, top.description ++ mergeSep ++ feature.description)]
          else [],
        mergedEntry := some { id := top.id, title := top.title, project := project.name },
        nextIdx := idx } ∧
    (processItem env parentHash parentCast feature project idx).featureAttempts = [] ∧
    (processItem env parentHash parentCast feature project idx).featuresCreated = [] ∧
    ((processItem env parentHash parentCast feature project idx).descUpdates ≠ [] ↔
      2 * feature.description.length > top.description.length) := by
  have h1 : processItem env parentHash parentCast feature project idx =
      { sourcesAdded := [{ feature_id := top.id, source_cast_hash := parentHash,
                           source_cast_author_fid := some parentCast.authorFid,
                           source_cast_text := some parentCast.text }],
        descUpdates :=
          if 2 * feature.description.length > top.description.length then
            [(top.id, top.description ++ mergeSep ++ feature.description)]
          else [],
        mergedEntry := some { id := top.id, title := top.title, project := project.name },
        nextIdx := idx } := by
    simp only [processItem, hs]
    simp [if_pos hgt]
  refine ⟨h1, by rw [h1], by rw [h1], ?_⟩
  rw [h1]
  by_cases hlen : 2 * feature.description.length > top.description.length
  · simp [hlen]
  · simp [hlen]

/-- C2 witness: at similarity 0.92 against threshold 0.85, the dark-mode
item merges into `feat-old`: one FeatureSource, no feature creation, and
the 23-character new description (more than half of the 20-character
existing one) is appended under the separator. -/
theorem c2_merge_monotonicity_witness :
    (processItem mergeEnv "0xpar" bobCast darkModeFeature baseRow 0).featureAttempts = [] ∧
    (processItem mergeEnv "0xpar" bobCast darkModeFeature baseRow 0).featuresCreated = [] ∧
    (processItem mergeEnv "0xpar" bobCast darkModeFeature baseRow 0).sourcesAdded =
      [{ feature_id := "feat-old", source_cast_hash := "0xpar",
         source_cast_author_fid := some 555, source_cast_text := some "check this out" }] ∧
    (processItem mergeEnv "0xpar" bobCast darkModeFeature baseRow 0).descUpdates ≠ [] :=
  by
  obtain ⟨h1, h2, h3, h4⟩ :=
    c2_merge_monotonicity mergeEnv "0xpar" bobCast darkModeFeature baseRow 0
      mergeTop [] rfl (by decide)
  exact ⟨h2, h3, by rw [h1]; rfl, h4.mpr (by decide)⟩

/-- C5: Scenario F — a reply "I'm the owner, token: clanker" to the bot's
prior "NEW PROJECT ALERT! @widget" message short-circuits intent
classification (no intent step, no LLM call) and creates a Project with
handle "widget", owner the replying author's account id 777 (which
resolves via user lookup), voting type `token` and no token address, then
replies with the project-created message and terminates, writing exactly
one audit log entry. -/
theorem c5_project_setup_reply :
    processWebhook scenarioFEnv =
      { replies := [.projectCreated "proj-1" "alice"],
        logs := [{ cast_hash := "0xcur", mention_author_fid := 777,
                   parent_cast_hash := some "0xpar" }],
        projectAttempts := [widgetParams],
        projectsCreated :=
          [{ id := "proj-1", name := "Widget", project_handle := "widget",
             voting_type := .token, token_address := none, owner_fid := some 777 }] } := by
  decide

/-- C9 counterexample: in a run that reaches feature creation with the
`features` insert failing ("db down"), the claim promises a generic
apologetic reply plus an audit log entry; instead the `createFeature`
exception propagates out of `processWebhook` (whose caller in
src/index.ts only logs it to the console): no reply is posted and no
audit log entry is written. -/
theorem c9_counterexample :
    (processWebhook (featureFailEnv "db down")).thrown =
      some "Failed to create feature: db down" ∧
    (processWebhook (featureFailEnv "db down")).replies = [] ∧
    (processWebhook (featureFailEnv "db down")).logs = [] ∧
    (processWebhook (featureFailEnv "db down")).featuresCreated = [] := by
  decide

/-- C9 as amended: a datastore write failure during PROJECT creation is
caught and surfaced as the generic apologetic reply plus one audit log
entry recording the underlying error message, with exactly one insert
attempt (no retry), nothing created and no escaping exception; a write
failure during FEATURE creation is not caught — the exception escapes
`processWebhook` with no reply, no audit log entry, and no retry (one
attempt). -/
theorem c9_amended (env : Env) (castHash : String) (authorFid : Nat)
    (parentHash : String) (setupInfo : SetupInfo) (ownerRaw handle : String)
    (po : ParsedOwner) (msg : String)
    (hpo : parseOwner env.getUserO env.lookupO
      (if ownerRaw = "me" then toString authorFid else ownerRaw) env.botFid = some po)
    (hfail : env.projectInsertError = some msg) :
    ((processSetup env castHash authorFid parentHash setupInfo ownerRaw handle).replies =
      [.genericError "Failed to create project"] ∧
     (processSetup env castHash authorFid parentHash setupInfo ownerRaw handle).logs =
      [{ cast_hash := castHash, mention_author_fid := authorFid,
         parent_cast_hash := some parentHash,
         error_message := some (.projectCreationFailed
           ("Failed to create project: " ++ msg)) }] ∧
     (processSetup env castHash authorFid parentHash setupInfo ownerRaw
        handle).projectAttempts.length = 1 ∧
     (processSetup env castHash authorFid parentHash setupInfo ownerRaw
        handle).projectsCreated = [] ∧
     (processSetup env castHash authorFid parentHash setupInfo ownerRaw
        handle).thrown = none) ∧
    ((processWebhook (featureFailEnv "disk full")).thrown =
      some "Failed to create feature: disk full" ∧
     (processWebhook (featureFailEnv "disk full")).replies = [] ∧
     (processWebhook (featureFailEnv "disk full")).logs = [] ∧
     (processWebhook (featureFailEnv "disk full")).featureAttempts.length = 1) := by
  constructor
  · refine ⟨?_, ?_, ?_, ?_, ?_⟩ <;> simp [processSetup, hpo, hfail]
  · exact ⟨by decide, by decide, by decide, by decide⟩

/-- C9 amended witness: the scenario-F environment with the `projects`
insert failing with "db err" satisfies the hypotheses. -/
theorem c9_amended_witness :
    (processSetup (projectFailEnv "db err") "0xcur" 777 "0xpar"
      (parseProjectSetupReply "I\x27m the owner, token: clanker") "me" "widget").replies =
      [.genericError "Failed to create project"] ∧
    (processSetup (projectFailEnv "db err") "0xcur" 777 "0xpar"
      (parseProjectSetupReply "I\x27m the owner, token: clanker") "me"
      "widget").projectsCreated = [] := by
  obtain ⟨⟨h1, -, -, h4, -⟩, -⟩ :=
    c9_amended (projectFailEnv "db err") "0xcur" 777 "0xpar"
      (parseProjectSetupReply "I\x27m the owner, token: clanker") "me" "widget"
      { fid := 777, username := "alice" } "db err" (by decide) rfl
  exact ⟨h1, h4⟩

/-- C10: in the project-setup path, with the owner resolved and the
insert succeeding, exactly one project row is created; its voting type is
`token` exactly when the parsed token value — defaulting to "clanker"
when the reply names no token (or names an empty one) — lowercases to
"clanker", in which case no token address is stored; any other parsed
token value yields voting type `score` with that value stored as the
project's token address. -/
theorem c10_voting_type (env : Env) (castHash : String) (authorFid : Nat)
    (parentHash : String) (setupInfo : SetupInfo) (ownerRaw handle : String)
    (po : ParsedOwner)
    (hpo : parseOwner env.getUserO env.lookupO
      (if ownerRaw = "me" then toString authorFid else ownerRaw) env.botFid = some po)
    (hok : env.projectInsertError = none) :
    ∃ row,
      (processSetup env castHash authorFid parentHash setupInfo ownerRaw
        handle).projectsCreated = [row] ∧
      (row.voting_type = .token ↔ tokenInputOf setupInfo.token = "clanker") ∧
      (tokenInputOf setupInfo.token = "clanker" → row.token_address = none) ∧
      (tokenInputOf setupInfo.token ≠ "clanker" → row.token_address = setupInfo.token) := by
  simp only [processSetup, hpo, hok]
  refine ⟨_, rfl, ?_, ?_, ?_⟩
  · by_cases hcl : tokenInputOf setupInfo.token = "clanker" <;>
      simp [createProjectRow, determineVoting, hcl]
  · intro hcl
    simp [createProjectRow, determineVoting, hcl]
  · intro hcl
    rcases ht : setupInfo.token with _ | t
    · rw [ht] at hcl
      exact absurd (by decide) hcl
    · rw [ht] at hcl
      by_cases he : t = ""
      · rw [he] at hcl
        exact absurd (by decide) hcl
      · simp [createProjectRow, determineVoting, hcl, he]

/-- C10 witness: the scenario-F setup reply parses token "clanker", so
the created row has voting type `token` and no address. -/
theorem c10_voting_type_witness :
    ∃ row,
      (processSetup scenarioFEnv "0xcur" 777 "0xpar"
        (parseProjectSetupReply "I\x27m the owner, token: clanker") "me"
        "widget").projectsCreated = [row] ∧
      (row.voting_type = .token ↔
        tokenInputOf (parseProjectSetupReply "I\x27m the owner, token: clanker").token =
          "clanker") ∧
      (tokenInputOf (parseProjectSetupReply "I\x27m the owner, token: clanker").token =
          "clanker" → row.token_address = none) ∧
      (tokenInputOf (parseProjectSetupReply "I\x27m the owner, token: clanker").token ≠
          "clanker" → row.token_address =
            (parseProjectSetupReply "I\x27m the owner, token: clanker").token) :=
  c10_voting_type scenarioFEnv "0xcur" 777 "0xpar"
    (parseProjectSetupReply "I\x27m the owner, token: clanker") "me" "widget"
    { fid := 777, username := "alice" } (by decide) rfl

/-- C7: `createProject` stores the handle lowercased, and
`getProjectByHandle` lowercases its argument before the lookup, so any
two casing variants of a handle always resolve identically; and when the
created row's lowercased handle is unique in the table, every casing
variant of the created handle resolves to the created row. -/
theorem c7_handle_normalization (table : List Project) (newId : String)
    (params : CreateProjectParams) (h1 h2 : String)
    (hcase : toLowerS h1 = toLowerS h2) :
    (createProjectDb table newId params).2.project_handle = toLowerS params.project_handle ∧
    getProjectByHandle (createProjectDb table newId params).1 h1 =
      getProjectByHandle (createProjectDb table newId params).1 h2 ∧
    (((createProjectDb table newId params).1.filter
        (fun q => q.project_handle == toLowerS params.project_handle)).length = 1 →
      ∀ h, toLowerS h = toLowerS params.project_handle →
        getProjectByHandle (createProjectDb table newId params).1 h =
          some (createProjectDb table newId params).2) := by
  refine ⟨rfl, ?_, ?_⟩
  · unfold getProjectByHandle
    rw [hcase]
  · intro hu h hh
    unfold getProjectByHandle
    rw [hh]
    have hmem : (createProjectDb table newId params).2 ∈
        (createProjectDb table newId params).1.filter
          (fun q => q.project_handle == toLowerS params.project_handle) := by
      apply List.mem_filter.mpr
      constructor
      · simp [createProjectDb]
      · simp [createProjectDb, createProjectRow]
    obtain ⟨a, ha⟩ := List.length_eq_one.mp hu
    rw [ha] at hmem ⊢
    simp only [List.mem_singleton] at hmem
    rw [hmem]

/-- C7 witness: creating handle "Base" stores "base", and the lookups
"BASE", "base" and "bAsE" all resolve to the created row. -/
theorem c7_handle_normalization_witness :
    getProjectByHandle (createProjectDb [] "p1" baseParams).1 "BASE" =
      some (createProjectDb [] "p1" baseParams).2 ∧
    getProjectByHandle (createProjectDb [] "p1" baseParams).1 "base" =
      getProjectByHandle (createProjectDb [] "p1" baseParams).1 "bAsE" := by
  obtain ⟨-, heq, huniq⟩ :=
    c7_handle_normalization [] "p1" baseParams "base" "bAsE" (by decide)
  exact ⟨huniq (by decide) "BASE" (by decide), heq⟩

/-- C6: whenever the create-project pattern family matches the cleaned
input with a usable captured identifier — non-empty after lowercasing and
stripping to `[a-z0-9_-]`, and not a stopword — the pattern classifier
returns intent `create_project` with confidence 0.75, no target projects,
and that normalized identifier as the new project name; in particular
"create a new project called Castoors" captures "castoors". -/
theorem c6_create_project_pattern :
    (∀ (text : String) (known : List String) (name : String),
      createProjectScan (cleanTextOf text).data = some name →
      detectIntentByPattern text known =
        { intent := .create_project, targetProjects := [],
          newProjectName := some name, confidence := mkRat 75 100,
          reasoning := some "Pattern matched: create project request" } ∧
      name ≠ "" ∧ stopwords.contains name = false ∧
      name.data.all isLowerHandleC = true) ∧
    createProjectScan (cleanTextOf "create a new project called Castoors").data =
      some "castoors" := by
  constructor
  · intro text known name h
    have hA : detectIntentByPattern text known =
        { intent := .create_project, targetProjects := [],
          newProjectName := some name, confidence := mkRat 75 100,
          reasoning := some "Pattern matched: create project request" } := by
      simp only [detectIntentByPattern, h]
    obtain ⟨p1, p2, p3⟩ := createProjectScan_props (cleanTextOf text).data name h
    exact ⟨hA, p1, p2, p3⟩
  · decide

/-- C6 witness: Scenario B — "create a new project called Castoors"
yields `create_project` with `newProjectName` "castoors" at 0.75. -/
theorem c6_create_project_pattern_witness :
    detectIntentByPattern "create a new project called Castoors" [] =
      { intent := .create_project, targetProjects := [],
        newProjectName := some "castoors", confidence := mkRat 75 100,
        reasoning := some "Pattern matched: create project request" } ∧
    "castoors" ≠ "" :=
  ⟨(c6_create_project_pattern.1 "create a new project called Castoors" [] "castoors"
      (by decide)).1,
   (c6_create_project_pattern.1 "create a new project called Castoors" [] "castoors"
      (by decide)).2.1⟩

/-- C4: idempotent processing — a run whose cast id is already logged
(`checkProcessed` true) terminates silently with the empty outcome: no
reply, no audit log, no intent or extraction step, no persistence write;
moreover every run writes at most one audit log entry, so once a run has
logged its cast id, rerunning the same webhook produces nothing further —
exactly one audit log entry in total and no duplicate Feature or Project
creation. -/
theorem c4_idempotence (env : Env) :
    (env.processed = true → processWebhook env = {}) ∧
    (processWebhook env).logs.length ≤ 1 ∧
    ((processWebhook env).logs.length = 1 →
      processWebhook { env with processed := true } = {}) := by
  have hskip : ∀ e : Env, e.processed = true → processWebhook e = {} := by
    intro e he
    simp only [processWebhook]
    split
    · split
      · rfl
      · split
        · rfl
        · simp [he]
    · rfl
  refine ⟨hskip env, ?_, fun _ => hskip _ rfl⟩
  simp only [processWebhook]
  split
  · split
    · simp
    · split
      · simp
      · split
        · simp
        · split
          · simp
          · split
            · simp
            · split
              · simp
              · split
                · simp
                · exact processContext_logs_le _ _ _ _ _
  · simp

/-- C4 witness: with the scenario-F cast already processed, the run is
silent; the unprocessed run logs at most once. -/
theorem c4_idempotence_witness :
    processWebhook { scenarioFEnv with processed := true } = {} ∧
    (processWebhook scenarioFEnv).logs.length ≤ 1 :=
  ⟨(c4_idempotence { scenarioFEnv with processed := true }).1 rfl,
   (c4_idempotence scenarioFEnv).2.1⟩

end Roadmapr
